import Mathlib

set_option maxRecDepth 8000

namespace Ml4rt

/-! Shallow embedding of the example-dataset transformation layer of the
ml4rt repository.

The module `ml4rt/utils/example_utils.py` is absent from the source tree;
only its unit-test file `ml4rt/utils/example_utils_test.py` and callers
such as `ml4rt/misc.py` are present.  The functions of that module are
therefore modelled from the specification and validated against the
literal fixtures of the test file, which is part of the source.

Real numbers are modelled as rationals.  Numpy arrays are modelled as
lists.  The per-field value matrices of an example dictionary are stored
channel-major: one N-vector per scalar field and one N-by-H matrix per
vector field, listed in name-list order (the last numpy axis of the
source arrays becomes the outer list index, which is a pure layout
choice). -/

deriving instance DecidableEq for Except

/-- Numerical tolerance used throughout the test suite (1e-6). -/
def TOLERANCE : ℚ := 1 / 1000000

/-- Boolean strict comparison of rationals (the embedding keeps these
comparisons behind named wrappers so proofs can rewrite them by
conditional lemmas). -/
def qlt (a b : ℚ) : Bool := if a < b then true else false

/-- Boolean non-strict comparison of rationals. -/
def qle (a b : ℚ) : Bool := if a ≤ b then true else false

/-- Boolean membership of a rational in a list. -/
def qmem (a : ℚ) (l : List ℚ) : Bool := if a ∈ l then true else false

/-- Per-cell increments of a cumulative profile, continuing from a running
previous value.  Helper for `deltas`. -/
def deltasFrom (prev : ℚ) : List ℚ → List ℚ
  | [] => []
  | x :: xs => (x - prev) :: deltasFrom x xs

/-- Modelled from the spec: the per-cell increment profile of an actual
(cumulative) profile.  The bottom cell's increment equals the bottom
actual value; each later increment is the difference between consecutive
actual values. -/
def deltas (l : List ℚ) : List ℚ := deltasFrom 0 l

/-- Running cumulative sums, continuing from an accumulator.  Helper for
`cumsum`. -/
def cumsumFrom (acc : ℚ) : List ℚ → List ℚ
  | [] => []
  | x :: xs => (acc + x) :: cumsumFrom (acc + x) xs

/-- Cumulative sums of a list (numpy.cumsum). -/
def cumsum (l : List ℚ) : List ℚ := cumsumFrom 0 l

/-- Arithmetic midpoints of consecutive list entries. -/
def midpoints : List ℚ → List ℚ
  | a :: b :: rest => (a + b) / 2 :: midpoints (b :: rest)
  | _ => []

/-- Differences of consecutive list entries (numpy.diff). -/
def consecutiveDiffs (l : List ℚ) : List ℚ :=
  List.zipWith (fun a b => b - a) l l.tail

/-- Modelled from the spec: `example_utils.get_grid_cell_edges`.  Interior
edges are arithmetic midpoints of consecutive centers; the two outer
edges are symmetric extrapolations about the first and last centers. -/
def get_grid_cell_edges (centers : List ℚ) : List ℚ :=
  match centers, midpoints centers with
  | c0 :: _, m0 :: _ =>
      (2 * c0 - m0) ::
        (midpoints centers ++ [2 * centers.getLastD 0 - (midpoints centers).getLastD 0])
  | _, _ => []

/-- Modelled from the spec: `example_utils.get_grid_cell_widths`.  Widths
are consecutive edge differences. -/
def get_grid_cell_widths (edges : List ℚ) : List ℚ := consecutiveDiffs edges

/-- Errors raised by the example-utilities functions (all failures are
immediate hard errors per the spec's error-handling design). -/
inductive ExampleError where
  | fieldMissing
  | heightMissing
  | structuralMismatch
  | emptyList
  deriving DecidableEq

/-- Modelled from the spec: the example collection ("example dict").
Fields absent from a given dictionary in the source are the empty list
here. -/
structure ExampleDict where
  scalar_predictor_names : List String := []
  scalar_predictor_values : List (List ℚ) := []
  vector_predictor_names : List String := []
  vector_predictor_values : List (List (List ℚ)) := []
  scalar_target_names : List String := []
  scalar_target_values : List (List ℚ) := []
  vector_target_names : List String := []
  vector_target_values : List (List (List ℚ)) := []
  heights : List ℚ := []
  valid_times : List Int := []
  standard_atmo_flags : List Int := []
  example_id_strings : List String := []
  deriving DecidableEq

/-- Modelled from the spec: field-name constant for pressure. -/
def PRESSURE_NAME : String := "pressure_pascals"

/-- Modelled from the spec: field-name constant for temperature. -/
def TEMPERATURE_NAME : String := "temperature_kelvins"

/-- Modelled from the spec: field-name constant for specific humidity. -/
def SPECIFIC_HUMIDITY_NAME : String := "specific_humidity_kg_kg01"

/-- Modelled from the spec: field-name constant for latitude. -/
def LATITUDE_NAME : String := "latitude_deg_n"

/-- Modelled from the spec: field-name constant for longitude. -/
def LONGITUDE_NAME : String := "longitude_deg_e"

/-- Modelled from the spec: field-name constant for solar zenith angle. -/
def ZENITH_ANGLE_NAME : String := "zenith_angle_radians"

/-- Modelled from the spec: field-name constant for albedo. -/
def ALBEDO_NAME : String := "albedo"

/-- Modelled from the spec: field-name constant for liquid-water path. -/
def LIQUID_WATER_PATH_NAME : String := "liquid_water_path_kg_m02"

/-- Modelled from the spec: field-name constant for upward liquid-water
path. -/
def UPWARD_LIQUID_WATER_PATH_NAME : String := "upward_liquid_water_path_kg_m02"

/-- Modelled from the spec: field-name constant for upward ice-water
path. -/
def UPWARD_ICE_WATER_PATH_NAME : String := "upward_ice_water_path_kg_m02"

/-- Modelled from the spec: field-name constant for upward shortwave
flux. -/
def SHORTWAVE_UP_FLUX_NAME : String := "shortwave_up_flux_w_m02"

/-- Modelled from the spec: field-name constant for downward shortwave
flux. -/
def SHORTWAVE_DOWN_FLUX_NAME : String := "shortwave_down_flux_w_m02"

/-- Modelled from the spec: field-name constant for the upward shortwave
flux increment. -/
def SHORTWAVE_UP_FLUX_INC_NAME : String := "shortwave_up_flux_inc_w_m03"

/-- Modelled from the spec: field-name constant for the downward
shortwave flux increment. -/
def SHORTWAVE_DOWN_FLUX_INC_NAME : String := "shortwave_down_flux_inc_w_m03"

/-- Modelled from the spec: field-name constant for the shortwave heating
rate. -/
def SHORTWAVE_HEATING_RATE_NAME : String := "shortwave_heating_rate_k_day01"

/-- Modelled from the spec: field-name constant for the shortwave surface
downwelling flux. -/
def SHORTWAVE_SURFACE_DOWN_FLUX_NAME : String := "shortwave_surface_down_flux_w_m02"

/-- Modelled from the spec: standard-atmosphere enum (midlatitude
winter). -/
def MIDLATITUDE_WINTER_ENUM : Int := 3

/-- Modelled from the spec: standard-atmosphere enum (subarctic
winter). -/
def SUBARCTIC_WINTER_ENUM : Int := 5

/-- Looks up the channel of a named field: the entry of the channel-major
value list at the field's position in the name list, or `none` when the
field is absent. -/
def channelOf (names : List String) (values : List α) (dflt : α) (field : String) : Option α :=
  if field ∈ names then some (values.getD (names.indexOf field) dflt) else none

/-- Modelled from the spec: seconds per day. -/
def DAYS_TO_SECONDS : ℚ := 86400

/-- Modelled from the spec: standard gravity in metres per squared
second. -/
def GRAVITY_CONSTANT_M_S02 : ℚ := 9.80665

/-- Modelled from the spec: dry-air specific heat at constant pressure in
joules per kilogram per kelvin. -/
def DRY_AIR_SPECIFIC_HEAT_J_KG01_K01 : ℚ := 1004

/-- The scaling coefficient of `fluxes_to_heating_rate`:
86400 times standard gravity over the dry-air specific heat. -/
def HEATING_RATE_COEFF : ℚ :=
  DAYS_TO_SECONDS * (GRAVITY_CONSTANT_M_S02 / DRY_AIR_SPECIFIC_HEAT_J_KG01_K01)

/-- Modelled from the spec: finite difference of a profile with the same
rule applied at the top boundary (the last difference is repeated so the
output keeps the input's length). -/
def profileDiff (v : List ℚ) : List ℚ :=
  match consecutiveDiffs v with
  | [] => []
  | d => d ++ [d.getLastD 0]

/-- Modelled from the spec: `example_utils.fluxes_to_heating_rate`.
Adds a shortwave-heating-rate vector target computed per example and per
height level as `C * net_flux_diff / |pressure_diff|`, where the net flux
is the downward minus the upward flux and both difference profiles are
taken by `profileDiff`.  Errors when the flux or pressure fields are
missing. -/
def fluxes_to_heating_rate (d : ExampleDict) : Except ExampleError ExampleDict :=
  match channelOf d.vector_predictor_names d.vector_predictor_values [] PRESSURE_NAME,
        channelOf d.vector_target_names d.vector_target_values [] SHORTWAVE_UP_FLUX_NAME,
        channelOf d.vector_target_names d.vector_target_values [] SHORTWAVE_DOWN_FLUX_NAME with
  | some pressureM, some upM, some downM =>
      let netM := List.zipWith (fun u dn => List.zipWith (fun ui di => di - ui) u dn) upM downM
      let heatM := List.zipWith
        (fun nf p => List.zipWith (fun nd pd => HEATING_RATE_COEFF * nd / |pd|)
          (profileDiff nf) (profileDiff p))
        netM pressureM
      Except.ok { d with
        vector_target_names := d.vector_target_names ++ [SHORTWAVE_HEATING_RATE_NAME],
        vector_target_values := d.vector_target_values ++ [heatM] }
  | _, _, _ => Except.error ExampleError.fieldMissing

/-- Modelled from the spec: `example_utils.fluxes_actual_to_increments`.
Adds the two increment-named vector targets (per-cell flux difference
divided by the grid-cell width, with the bottom cell's increment equal to
the bottom actual value) while retaining the two actual-named ones. -/
def fluxes_actual_to_increments (d : ExampleDict) : Except ExampleError ExampleDict :=
  match channelOf d.vector_target_names d.vector_target_values [] SHORTWAVE_UP_FLUX_NAME,
        channelOf d.vector_target_names d.vector_target_values [] SHORTWAVE_DOWN_FLUX_NAME with
  | some upM, some downM =>
      let w := get_grid_cell_widths (get_grid_cell_edges d.heights)
      let upInc := upM.map (fun p => List.zipWith (fun x wi => x / wi) (deltas p) w)
      let downInc := downM.map (fun p => List.zipWith (fun x wi => x / wi) (deltas p) w)
      Except.ok { d with
        vector_target_names :=
          d.vector_target_names ++ [SHORTWAVE_DOWN_FLUX_INC_NAME, SHORTWAVE_UP_FLUX_INC_NAME],
        vector_target_values := d.vector_target_values ++ [downInc, upInc] }
  | _, _ => Except.error ExampleError.fieldMissing

/-- Modelled from the spec: `example_utils.fluxes_increments_to_actual`.
Re-derives the actual flux profiles from the increment profiles
(cumulative sum of increment times grid-cell width) and stores them in
place of the existing actual-named channels, keeping all four named
fields. -/
def fluxes_increments_to_actual (d : ExampleDict) : Except ExampleError ExampleDict :=
  match channelOf d.vector_target_names d.vector_target_values [] SHORTWAVE_UP_FLUX_INC_NAME,
        channelOf d.vector_target_names d.vector_target_values [] SHORTWAVE_DOWN_FLUX_INC_NAME with
  | some upIncM, some downIncM =>
      if SHORTWAVE_UP_FLUX_NAME ∈ d.vector_target_names ∧
          SHORTWAVE_DOWN_FLUX_NAME ∈ d.vector_target_names then
        let w := get_grid_cell_widths (get_grid_cell_edges d.heights)
        let newUp := upIncM.map (fun p => cumsum (List.zipWith (fun x wi => x * wi) p w))
        let newDown := downIncM.map (fun p => cumsum (List.zipWith (fun x wi => x * wi) p w))
        Except.ok { d with
          vector_target_values :=
            (d.vector_target_values.set (d.vector_target_names.indexOf SHORTWAVE_UP_FLUX_NAME) newUp).set
              (d.vector_target_names.indexOf SHORTWAVE_DOWN_FLUX_NAME) newDown }
      else Except.error ExampleError.fieldMissing
  | _, _ => Except.error ExampleError.fieldMissing

/-- Modelled from the spec: `example_utils.create_fake_heights`.  Appends
`num_padding` synthetic heights above the real grid top, the first at the
top plus 1,000,000 metres and each subsequent one stepping by a further
1,000,000 metres. -/
def create_fake_heights (real_heights : List ℚ) (num_padding : Nat) : List ℚ :=
  real_heights ++
    (List.range num_padding).map (fun i => real_heights.getLastD 0 + 1000000 * ((i : ℚ) + 1))

/-- Modelled from the spec and the fixtures of `example_utils_test.py`:
`example_utils._add_height_padding`.  Desired heights above the real grid
top are appended to the height axis; at the appended heights every vector
predictor repeats its topmost real value and every vector target is
filled with zero. -/
def add_height_padding (d : ExampleDict) (desired : List ℚ) : ExampleDict :=
  let top := d.heights.getLastD 0
  let pad := desired.filter (fun h => qlt top h)
  let k := pad.length
  { d with
    heights := d.heights ++ pad,
    vector_predictor_values := d.vector_predictor_values.map
      (fun m => m.map (fun row => row ++ List.replicate k (row.getLastD 0))),
    vector_target_values := d.vector_target_values.map
      (fun m => m.map (fun row => row ++ List.replicate k 0)) }

/-- Positions of each desired height in the stored height axis (exact
match), or `none` when some desired height is absent. -/
def selectHeightIndices (heights desired : List ℚ) : Option (List Nat) :=
  if desired.all (fun h => qmem h heights) then
    some (desired.map (fun h => heights.indexOf h))
  else none

/-- Modelled from the spec: `example_utils.subset_by_height`.  Pads the
collection first (`add_height_padding`) when desired heights extend past
the real grid top, then selects each desired height by exact match, the
output height ordering following the desired order exactly. -/
def subset_by_height (d : ExampleDict) (desired : List ℚ) : Except ExampleError ExampleDict :=
  let d2 := add_height_padding d desired
  match selectHeightIndices d2.heights desired with
  | none => Except.error ExampleError.heightMissing
  | some idxs =>
      Except.ok { d2 with
        heights := desired,
        vector_predictor_values := d2.vector_predictor_values.map
          (fun m => m.map (fun row => idxs.map (fun i => row.getD i 0))),
        vector_target_values := d2.vector_target_values.map
          (fun m => m.map (fun row => idxs.map (fun i => row.getD i 0))) }

/-- Shifts every run of a run list one position to the right. -/
def shiftRuns (rs : List (Nat × Nat)) : List (Nat × Nat) :=
  rs.map (fun p => (p.1 + 1, p.2 + 1))

/-- Maximal runs of `true` in a boolean mask, as (start, inclusive end)
index pairs in left-to-right order. -/
def boolRuns : List Bool → List (Nat × Nat)
  | [] => []
  | false :: rest => shiftRuns (boolRuns rest)
  | true :: rest =>
      match boolRuns rest with
      | (0, e) :: rs => (0, e + 1) :: shiftRuns rs
      | rs => (0, 0) :: shiftRuns rs

/-- Mask of values whose absolute value exceeds the numerical
tolerance. -/
def nonzeroMask (values : List ℚ) : List Bool :=
  values.map (fun v => qlt TOLERANCE |v|)

/-- Modelled from the spec: `example_utils._find_nonzero_runs`.  Returns
the start indices and the inclusive end indices of every maximal
contiguous run of values whose absolute value exceeds the numerical
tolerance. -/
def find_nonzero_runs (values : List ℚ) : List Nat × List Nat :=
  let rs := boolRuns (nonzeroMask values)
  (rs.map Prod.fst, rs.map Prod.snd)

/-- Characterisation of a maximal run of `true` in a boolean mask:
a nonempty inclusive index interval inside the mask, all `true`, that
cannot be extended on either side. -/
def IsMaxRun (m : List Bool) (s e : Nat) : Prop :=
  s ≤ e ∧ e < m.length ∧ (∀ i, s ≤ i → i ≤ e → m.getD i false = true) ∧
    (s = 0 ∨ m.getD (s - 1) false = false) ∧
    (e + 1 = m.length ∨ m.getD (e + 1) false = false)

/-- Modelled from the spec and the fixtures of `example_utils_test.py`:
`example_utils.find_cloud_layers`.  For each example, the upward
liquid/ice-water-path profile is differenced across layers (`deltas`),
the run detector finds the contiguous cloudy layers, runs whose total
path reaches the minimum path are kept, and the outputs are the boolean
cloud mask per height and the per-example count of kept layers. -/
def find_cloud_layers (d : ExampleDict) (min_path : ℚ) (for_ice : Bool) :
    Except ExampleError (List (List Bool) × List Nat) :=
  let field := if for_ice then UPWARD_ICE_WATER_PATH_NAME else UPWARD_LIQUID_WATER_PATH_NAME
  match channelOf d.vector_predictor_names d.vector_predictor_values [] field with
  | none => Except.error ExampleError.fieldMissing
  | some pathM =>
      let results := pathM.map (fun p =>
        let content := deltas p
        let rs := boolRuns (nonzeroMask content)
        let kept := rs.filter
          (fun r => qle min_path ((content.drop r.1).take (r.2 + 1 - r.1)).sum)
        let mask := (List.range d.heights.length).map
          (fun i => kept.any (fun r => decide (r.1 ≤ i) && decide (i ≤ r.2)))
        (mask, kept.length))
      Except.ok (results.map Prod.fst, results.map Prod.snd)

/-- Structural compatibility required by `concat_examples`: identical
heights and identical field-name lists for every category. -/
def sameStructure (d1 d2 : ExampleDict) : Bool :=
  decide (d1.heights = d2.heights) &&
  decide (d1.scalar_predictor_names = d2.scalar_predictor_names) &&
  decide (d1.vector_predictor_names = d2.vector_predictor_names) &&
  decide (d1.scalar_target_names = d2.scalar_target_names) &&
  decide (d1.vector_target_names = d2.vector_target_names)

/-- Concatenation of two structurally compatible collections along the
example axis: every per-example array is appended channel-wise and the
example-ID list is appended. -/
def mergeTwo (d1 d2 : ExampleDict) : ExampleDict :=
  { d1 with
    scalar_predictor_values :=
      List.zipWith (fun a b => a ++ b) d1.scalar_predictor_values d2.scalar_predictor_values,
    vector_predictor_values :=
      List.zipWith (fun a b => a ++ b) d1.vector_predictor_values d2.vector_predictor_values,
    scalar_target_values :=
      List.zipWith (fun a b => a ++ b) d1.scalar_target_values d2.scalar_target_values,
    vector_target_values :=
      List.zipWith (fun a b => a ++ b) d1.vector_target_values d2.vector_target_values,
    valid_times := d1.valid_times ++ d2.valid_times,
    standard_atmo_flags := d1.standard_atmo_flags ++ d2.standard_atmo_flags,
    example_id_strings := d1.example_id_strings ++ d2.example_id_strings }

/-- Modelled from the spec: `example_utils.concat_examples`.
Concatenates the collections along the example axis in input order; a
mismatch of heights or of any field-name list is a hard error. -/
def concat_examples : List ExampleDict → Except ExampleError ExampleDict
  | [] => Except.error ExampleError.emptyList
  | [d] => Except.ok d
  | d1 :: d2 :: rest =>
      if sameStructure d1 d2 then concat_examples (mergeTwo d1 d2 :: rest)
      else Except.error ExampleError.structuralMismatch
termination_by l => l.length

/-- Result of a field lookup: a length-N column for scalar fields or for
vector fields at one height, a full N-by-H matrix for vector fields with
no height given. -/
inductive FieldSlice where
  | column (v : List ℚ)
  | matrix (m : List (List ℚ))
  deriving DecidableEq

/-- Modelled from the spec: `example_utils.get_field_from_dict`.  Scalar
fields return their length-N column without consulting the height
argument; vector fields return the full matrix when no height is given,
or the column at an exactly matching height, erring when the height is
absent. -/
def get_field_from_dict (d : ExampleDict) (field : String) (height : Option ℚ) :
    Except ExampleError FieldSlice :=
  match channelOf d.scalar_predictor_names d.scalar_predictor_values [] field with
  | some col => Except.ok (FieldSlice.column col)
  | none =>
  match channelOf d.scalar_target_names d.scalar_target_values [] field with
  | some col => Except.ok (FieldSlice.column col)
  | none =>
  match (channelOf d.vector_predictor_names d.vector_predictor_values [] field).orElse
      (fun _ => channelOf d.vector_target_names d.vector_target_values [] field) with
  | none => Except.error ExampleError.fieldMissing
  | some m =>
      match height with
      | none => Except.ok (FieldSlice.matrix m)
      | some h =>
          if qmem h d.heights then
            Except.ok (FieldSlice.column (m.map (fun row => row.getD (d.heights.indexOf h) 0)))
          else Except.error ExampleError.heightMissing

/-- Decimal digit as a character. -/
def digitChar : Nat → Char
  | 0 => '0'
  | 1 => '1'
  | 2 => '2'
  | 3 => '3'
  | 4 => '4'
  | 5 => '5'
  | 6 => '6'
  | 7 => '7'
  | 8 => '8'
  | _ => '9'

/-- Decimal digit list of a natural number, with explicit fuel. -/
def natDigitsAux : Nat → Nat → List Char
  | 0, _ => []
  | fuel + 1, n => if n < 10 then [digitChar n] else natDigitsAux fuel (n / 10) ++ [digitChar (n % 10)]

/-- Decimal digit list of a natural number. -/
def natDigits (n : Nat) : List Char := natDigitsAux 20 n

/-- Pads a digit list with zeros on the left up to a given width. -/
def padZeroLeft (w : Nat) (l : List Char) : List Char :=
  List.replicate (w - l.length) '0' ++ l

/-- Fixed-point rendering of a nonnegative rational with six decimal
places, rounding to the nearest millionth (the `%.6f` format of the
source IDs). -/
def formatFixed6 (q : ℚ) : List Char :=
  let n := (⌊q * 1000000 + 1 / 2⌋).toNat
  natDigits (n / 1000000) ++ '.' :: padZeroLeft 6 (natDigits (n % 1000000))

/-- Zero-padded decimal rendering of a nonnegative integer (the `%010d`
format of the source IDs, for width 10). -/
def formatPadInt (w : Nat) (t : Int) : List Char := padZeroLeft w (natDigits t.toNat)

/-- Character list of one example-ID string in the source's exact layout:
lat, long, zenith angle, valid time, standard-atmosphere flag and
10-metre temperature. -/
def exampleIdChars (lat lon zen : ℚ) (t flag : Int) (temp : ℚ) : List Char :=
  (r"lat=").toList ++ formatFixed6 lat ++
  (r"_long=").toList ++ formatFixed6 lon ++
  (r"_zenith-angle-rad=").toList ++ formatFixed6 zen ++
  (r"_time=").toList ++ formatPadInt 10 t ++
  (r"_atmo=").toList ++ natDigits flag.toNat ++
  (r"_temp-10m-kelvins=").toList ++ formatFixed6 temp

/-- Modelled from the spec: `example_utils.create_example_ids`.  For each
example, formats the ID string from the scalar latitude, longitude and
zenith angle, the valid time, the standard-atmosphere flag, and the
temperature read from the vector temperature field at height 10 m. -/
def create_example_ids (d : ExampleDict) : Except ExampleError (List String) :=
  match channelOf d.scalar_predictor_names d.scalar_predictor_values [] LATITUDE_NAME,
        channelOf d.scalar_predictor_names d.scalar_predictor_values [] LONGITUDE_NAME,
        channelOf d.scalar_predictor_names d.scalar_predictor_values [] ZENITH_ANGLE_NAME,
        channelOf d.vector_predictor_names d.vector_predictor_values [] TEMPERATURE_NAME with
  | some lats, some lons, some zens, some tempM =>
      if qmem 10 d.heights then
        let hIdx := d.heights.indexOf 10
        Except.ok ((List.range d.valid_times.length).map (fun i =>
          String.mk (exampleIdChars (lats.getD i 0) (lons.getD i 0) (zens.getD i 0)
            (d.valid_times.getD i 0) (d.standard_atmo_flags.getD i 0)
            ((tempM.getD i []).getD hIdx 0))))
      else Except.error ExampleError.heightMissing
  | _, _, _, _ => Except.error ExampleError.fieldMissing

/-- Splits a character list at every occurrence of a separator. -/
def splitChar (c : Char) (l : List Char) : List (List Char) :=
  l.foldr (fun x acc =>
    if x = c then [] :: acc
    else
      match acc with
      | [] => [[x]]
      | g :: gs => (x :: g) :: gs) [[]]

/-- Numeric value of a decimal digit character. -/
def digitVal (c : Char) : Option Nat :=
  if '0' ≤ c ∧ c ≤ '9' then some (c.toNat - 48) else none

/-- Parses a nonempty all-digit character list as a natural number. -/
def parseNatChars : List Char → Option Nat
  | [] => none
  | l => l.foldlM (fun acc c => (digitVal c).map (fun v => 10 * acc + v)) 0

/-- Parses a decimal character list (with an optional fractional part)
into its integer part, fractional-part numerator and fractional digit
count. -/
def parseDecRaw (l : List Char) : Option (Nat × Nat × Nat) :=
  match splitChar '.' l with
  | [a] => (parseNatChars a).map (fun n => (n, 0, 0))
  | [a, b] =>
      match parseNatChars a, parseNatChars b with
      | some n, some f => some (n, f, b.length)
      | _, _ => none
  | _ => none

/-- The rational denoted by a parsed decimal triple. -/
def ratOfDec (t : Nat × Nat × Nat) : ℚ := (t.1 : ℚ) + (t.2.1 : ℚ) / ((10 : ℚ) ^ t.2.2)

/-- Parses a decimal character list (with an optional fractional part) as
a rational. -/
def parseRatChars (l : List Char) : Option ℚ := (parseDecRaw l).map ratOfDec

/-- Removes an expected leading tag from a character list, or fails. -/
def chopTag : List Char → List Char → Option (List Char)
  | [], l => some l
  | _ :: _, [] => none
  | t :: ts, x :: xs => if x = t then chopTag ts xs else none

/-- The six fields of one parsed example-ID string, decimals kept as raw
triples (the fully discrete part of the parse). -/
structure RawIdParse where
  lat : Nat × Nat × Nat
  lon : Nat × Nat × Nat
  zen : Nat × Nat × Nat
  time : Nat
  atmo : Nat
  temp : Nat × Nat × Nat
  deriving DecidableEq

/-- Parses one example-ID string into its six fields, the decimals kept
raw. -/
def parseOneIdRaw (s : String) : Option RawIdParse :=
  match splitChar '_' s.toList with
  | [g1, g2, g3, g4, g5, g6] => do
      let lat ← (chopTag (r"lat=").toList g1).bind parseDecRaw
      let lon ← (chopTag (r"long=").toList g2).bind parseDecRaw
      let zen ← (chopTag (r"zenith-angle-rad=").toList g3).bind parseDecRaw
      let t ← (chopTag (r"time=").toList g4).bind parseNatChars
      let flag ← (chopTag (r"atmo=").toList g5).bind parseNatChars
      let temp ← (chopTag (r"temp-10m-kelvins=").toList g6).bind parseDecRaw
      some { lat := lat, lon := lon, zen := zen, time := t, atmo := flag, temp := temp }
  | _ => none

/-- Parses one example-ID string back into its six numeric fields. -/
def parseOneId (s : String) : Option (ℚ × ℚ × ℚ × Int × Int × ℚ) :=
  (parseOneIdRaw s).map (fun r =>
    (ratOfDec r.lat, ratOfDec r.lon, ratOfDec r.zen, (r.time : Int), (r.atmo : Int),
      ratOfDec r.temp))

/-- The metadata recovered by `parse_example_ids`: six per-example
arrays, the times and atmosphere flags as integers. -/
structure ExampleIdMeta where
  latitudes : List ℚ
  longitudes : List ℚ
  zenith_angles : List ℚ
  valid_times : List Int
  standard_atmo_flags : List Int
  temperatures_10m : List ℚ
  deriving DecidableEq

/-- Parses a list of ID strings, failing if any single parse fails. -/
def parseAllIds : List String → Option (List (ℚ × ℚ × ℚ × Int × Int × ℚ))
  | [] => some []
  | s :: rest =>
      match parseOneId s, parseAllIds rest with
      | some x, some xs => some (x :: xs)
      | _, _ => none

/-- Modelled from the spec: `example_utils.parse_example_ids`.  Parses
each ID string and collects the six numeric fields into arrays. -/
def parse_example_ids (ids : List String) : Option ExampleIdMeta :=
  (parseAllIds ids).map (fun l =>
    { latitudes := l.map (fun x => x.1),
      longitudes := l.map (fun x => x.2.1),
      zenith_angles := l.map (fun x => x.2.2.1),
      valid_times := l.map (fun x => x.2.2.2.1),
      standard_atmo_flags := l.map (fun x => x.2.2.2.2.1),
      temperatures_10m := l.map (fun x => x.2.2.2.2.2) })

/-- Python runtime errors reachable in `misc.subset_examples`. -/
inductive PyErr where
  | typeError
  | assertionError
  deriving DecidableEq

/-- Result of `misc.subset_examples`: either an explicit index list, or a
random choice of a given size from the full index range (the numpy
`random.choice` call, abstracted by its arguments since its output is
nondeterministic). -/
inductive SubsetResult where
  | indices (idx : List Int)
  | randomChoice (numToKeep : Int) (numTotal : Int)
  deriving DecidableEq

/-- Embedding of `misc.subset_examples` (ml4rt/misc.py, lines 25-63),
statement by statement.  `none` stands for Python `None`; comparing
`None < 1` under Python 3 raises `TypeError`, modelled by
`PyErr.typeError`. -/
def subset_examples (indices_to_keep : Option (List Int)) (num_examples_to_keep : Option Int)
    (num_examples_total : Int) : Except PyErr SubsetResult :=
  match indices_to_keep with
  | none => Except.error PyErr.typeError
  | some idx0 =>
      let indices_to_keep : Option (List Int) :=
        if idx0.length = 1 ∧ idx0.headD 0 < 0 then none else some idx0
      let num_examples_to_keep :=
        if indices_to_keep.isSome then none else num_examples_to_keep
      match num_examples_to_keep with
      | none => Except.error PyErr.typeError
      | some n =>
          let num_examples_to_keep : Option Int := if n < 1 then none else some n
          let num_examples_to_keep : Option Int :=
            if indices_to_keep.isNone ∧ num_examples_to_keep.isNone then
              some num_examples_total
            else num_examples_to_keep
          match indices_to_keep with
          | some idx =>
              if idx.all (fun i => decide (0 ≤ i)) ∧
                  idx.all (fun i => decide (i < num_examples_total)) then
                Except.ok (SubsetResult.indices idx)
              else Except.error PyErr.assertionError
          | none =>
              match num_examples_to_keep with
              | none => Except.error PyErr.typeError
              | some m =>
                  if num_examples_total ≤ m then
                    Except.ok (SubsetResult.indices
                      ((List.range num_examples_total.toNat).map (fun i => (i : Int))))
                  else Except.ok (SubsetResult.randomChoice m num_examples_total)

/-- Scales every entry of a matrix. -/
def scaleRows (c : ℚ) (m : List (List ℚ)) : List (List ℚ) :=
  m.map (fun r => r.map (fun x => c * x))

/-- Adds a constant to every entry of a matrix. -/
def shiftRows (c : ℚ) (m : List (List ℚ)) : List (List ℚ) :=
  m.map (fun r => r.map (fun x => c + x))

/-- Fixture of `example_utils_test.py`: the third input of the
nonzero-run tests (a zero-padded hump of length 18). -/
def THIRD_VALUES : List ℚ :=
  [0, 0, 0, 0.2, 1.2, 3.5, 13.4, 31.2, 56.8, 90.1, 129.0, 172.3, 219.1, 249.4, 263.7, 0, 0, 0]

/-- Fixture of `example_utils_test.py`: three concatenated copies of the
hump. -/
def FOURTH_VALUES : List ℚ := THIRD_VALUES ++ THIRD_VALUES ++ THIRD_VALUES

/-- Fixture of `example_utils_test.py`: center heights for the grid-cell
tests. -/
def CENTER_HEIGHTS_M_AGL : List ℚ :=
  [10, 20, 40, 60, 80, 100, 30000, 33000, 36000, 39000, 42000, 46000, 50000]

/-- Fixture of `example_utils_test.py`: the expected grid-cell edges. -/
def EDGE_HEIGHTS_M_AGL : List ℚ :=
  [5, 15, 30, 50, 70, 90, 15050, 31500, 34500, 37500, 40500, 44000, 48000, 52000]

/-- Fixture of `example_utils_test.py`: the expected grid-cell widths. -/
def GRID_CELL_WIDTHS_METRES : List ℚ :=
  [10, 15, 20, 20, 20, 14960, 16450, 3000, 3000, 3000, 3500, 4000, 4000]

/-- Fixture of `example_utils_test.py`: upward-flux matrix (3 examples by
6 heights) for the flux-conversion tests. -/
def THIS_UP_FLUX_MATRIX_W_M02 : List (List ℚ) :=
  [[100, 150, 200, 250, 300, 350], [400, 500, 600, 700, 800, 900], [0, 0, 0, 0, 0, 0]]

/-- Fixture of `example_utils_test.py`: downward-flux matrix. -/
def THIS_DOWN_FLUX_MATRIX_W_M02 : List (List ℚ) :=
  [[50, 125, 200, 275, 350, 425], [500, 550, 600, 650, 700, 750],
   [1000, 1000, 1000, 1000, 1000, 1000]]

/-- Fixture of `example_utils_test.py`: pressure matrix in pascals. -/
def THIS_PRESSURE_MATRIX_PASCALS : List (List ℚ) :=
  scaleRows 100
    [[1000, 950, 900, 850, 800, 750], [1000, 900, 800, 700, 600, 500],
     [1000, 950, 900, 850, 800, 750]]

/-- Fixture of `example_utils_test.py`: pressure-difference matrix in
pascals. -/
def THIS_PRESSURE_DIFF_MATRIX_PASCALS : List (List ℚ) :=
  scaleRows 100
    [[-50, -50, -50, -50, -50, -50], [-100, -100, -100, -100, -100, -100],
     [-50, -50, -50, -50, -50, -50]]

/-- Fixture of `example_utils_test.py`: net-flux-difference matrix. -/
def THIS_NET_FLUX_DIFF_MATRIX_W02 : List (List ℚ) :=
  [[25, 25, 25, 25, 25, 25], [-50, -50, -50, -50, -50, -50], [0, 0, 0, 0, 0, 0]]

/-- Fixture of `example_utils_test.py`: heights of the flux-conversion
collection. -/
def THESE_HEIGHTS_M_AGL : List ℚ := [25, 50, 100, 500, 1000, 5000]

/-- Fixture of `example_utils_test.py`: valid times of the
flux-conversion collection. -/
def VALID_TIMES_UNIX_SEC : List Int := [300, 600, 900]

/-- Fixture of `example_utils_test.py`: the grid-cell width profile of
the flux-conversion heights (one row of the width matrix). -/
def THIS_WIDTH_PROFILE_METRES : List ℚ := [25, 75 / 2, 225, 450, 2250, 4000]

/-- Fixture of `example_utils_test.py`: the collection holding only the
actual flux fields and pressure. -/
def EXAMPLE_DICT_FLUXES_ONLY : ExampleDict :=
  { vector_predictor_names := [PRESSURE_NAME],
    vector_predictor_values := [THIS_PRESSURE_MATRIX_PASCALS],
    vector_target_names := [SHORTWAVE_UP_FLUX_NAME, SHORTWAVE_DOWN_FLUX_NAME],
    vector_target_values := [THIS_UP_FLUX_MATRIX_W_M02, THIS_DOWN_FLUX_MATRIX_W_M02],
    valid_times := VALID_TIMES_UNIX_SEC,
    heights := THESE_HEIGHTS_M_AGL }

/-- Fixture of `example_utils_test.py`: the expected heating-rate matrix,
the coefficient times the net-flux differences over the absolute pressure
differences. -/
def THIS_HEATING_RATE_MATRIX_K_DAY01 : List (List ℚ) :=
  List.zipWith (fun nf pd => List.zipWith (fun x y => HEATING_RATE_COEFF * x / |y|) nf pd)
    THIS_NET_FLUX_DIFF_MATRIX_W02 THIS_PRESSURE_DIFF_MATRIX_PASCALS

/-- Fixture of `example_utils_test.py`: the expected collection after
`fluxes_to_heating_rate`. -/
def EXAMPLE_DICT_WITH_HEATING_RATE : ExampleDict :=
  { EXAMPLE_DICT_FLUXES_ONLY with
    vector_target_names :=
      [SHORTWAVE_UP_FLUX_NAME, SHORTWAVE_DOWN_FLUX_NAME, SHORTWAVE_HEATING_RATE_NAME],
    vector_target_values :=
      [THIS_UP_FLUX_MATRIX_W_M02, THIS_DOWN_FLUX_MATRIX_W_M02,
       THIS_HEATING_RATE_MATRIX_K_DAY01] }

/-- Fixture of `example_utils_test.py`: upward flux increments in watts
per squared metre. -/
def THIS_UP_FLUX_INC_MATRIX_W_M02 : List (List ℚ) :=
  [[100, 50, 50, 50, 50, 50], [400, 100, 100, 100, 100, 100], [0, 0, 0, 0, 0, 0]]

/-- Fixture of `example_utils_test.py`: downward flux increments in watts
per squared metre. -/
def THIS_DOWN_FLUX_INC_MATRIX_W_M02 : List (List ℚ) :=
  [[50, 75, 75, 75, 75, 75], [500, 50, 50, 50, 50, 50], [1000, 0, 0, 0, 0, 0]]

/-- Fixture of `example_utils_test.py`: upward flux increments in watts
per cubic metre (divided by the grid-cell widths). -/
def THIS_UP_FLUX_INC_MATRIX_W_M03 : List (List ℚ) :=
  THIS_UP_FLUX_INC_MATRIX_W_M02.map
    (fun r => List.zipWith (fun x wi => x / wi) r THIS_WIDTH_PROFILE_METRES)

/-- Fixture of `example_utils_test.py`: downward flux increments in watts
per cubic metre. -/
def THIS_DOWN_FLUX_INC_MATRIX_W_M03 : List (List ℚ) :=
  THIS_DOWN_FLUX_INC_MATRIX_W_M02.map
    (fun r => List.zipWith (fun x wi => x / wi) r THIS_WIDTH_PROFILE_METRES)

/-- Fixture of `example_utils_test.py`: the expected collection after
`fluxes_actual_to_increments` (the two actual fields retained, the two
increment fields appended). -/
def EXAMPLE_DICT_WITH_INCREMENTS : ExampleDict :=
  { EXAMPLE_DICT_FLUXES_ONLY with
    vector_target_names :=
      [SHORTWAVE_UP_FLUX_NAME, SHORTWAVE_DOWN_FLUX_NAME,
       SHORTWAVE_DOWN_FLUX_INC_NAME, SHORTWAVE_UP_FLUX_INC_NAME],
    vector_target_values :=
      [THIS_UP_FLUX_MATRIX_W_M02, THIS_DOWN_FLUX_MATRIX_W_M02,
       THIS_DOWN_FLUX_INC_MATRIX_W_M03, THIS_UP_FLUX_INC_MATRIX_W_M03] }

/-- Fixture of `example_utils_test.py`: upward liquid-water-path matrix
(3 examples by 18 heights) in kilograms per squared metre. -/
def THIS_LWP_MATRIX_KG_M02 : List (List ℚ) :=
  scaleRows 0.001
    [[0, 0, 0, 1, 2, 2, 2, 2, 3, 4, 4, 4, 4, 5, 6, 6, 6, 6],
     [10, 20, 50, 70, 90, 90, 90, 90, 90, 90, 90, 110, 110, 130, 130, 150, 150, 210],
     [0, 3, 6, 9, 12, 15, 18, 21, 24, 27, 30, 33, 36, 39, 42, 45, 48, 51]]

/-- Fixture of `example_utils_test.py`: the minimum cloud path. -/
def MIN_PATH_KG_M02 : ℚ := 0.05

/-- Fixture of `example_utils_test.py`: the expected cloud mask. -/
def CLOUD_MASK_MATRIX : List (List Bool) :=
  [List.replicate 18 false,
   [true, true, true, true, true] ++ List.replicate 12 false ++ [true],
   false :: List.replicate 17 true]

/-- Fixture of `example_utils_test.py`: the expected per-example
cloud-layer counts. -/
def CLOUD_LAYER_COUNTS : List Nat := [0, 2, 1]

/-- Fixture of `example_utils_test.py`: the collection for the cloud-mask
test (18 unit-spaced heights). -/
def EXAMPLE_DICT_FOR_CLOUD_MASK : ExampleDict :=
  { vector_predictor_names := [UPWARD_LIQUID_WATER_PATH_NAME],
    vector_predictor_values := [THIS_LWP_MATRIX_KG_M02],
    heights := [1, 2, 3, 4, 5, 6, 7, 8, 9, 10, 11, 12, 13, 14, 15, 16, 17, 18] }

/-- Fixture of `example_utils_test.py`: the first collection of the
concatenation tests. -/
def FIRST_EXAMPLE_DICT : ExampleDict :=
  { scalar_predictor_names := [ZENITH_ANGLE_NAME, LATITUDE_NAME],
    scalar_predictor_values := [[0, 1, 2, 3], [40.02, 40.02, 40.02, 40.02]],
    vector_predictor_names := [TEMPERATURE_NAME],
    vector_predictor_values := [[[290, 295], [289, 294], [288, 293], [287, 292.5]]],
    scalar_target_names := [SHORTWAVE_SURFACE_DOWN_FLUX_NAME],
    scalar_target_values := [[200, 200, 200, 200]],
    vector_target_names := [SHORTWAVE_DOWN_FLUX_NAME, SHORTWAVE_UP_FLUX_NAME],
    vector_target_values :=
      [[[300, 200], [500, 300], [450, 450], [200, 100]],
       [[150, 150], [200, 150], [300, 350], [400, 100]]],
    heights := [100, 500],
    valid_times := [0, 300, 600, 1200],
    standard_atmo_flags := [0, 1, 2, 3],
    example_id_strings := [r"foo", r"bar", r"moo", r"hal"] }

/-- Fixture of `example_utils_test.py`: the second collection of the
concatenation tests (the first one rescaled). -/
def SECOND_EXAMPLE_DICT : ExampleDict :=
  { FIRST_EXAMPLE_DICT with
    scalar_predictor_values := FIRST_EXAMPLE_DICT.scalar_predictor_values.map
      (fun col => col.map (fun x => x * 2)),
    vector_predictor_values := FIRST_EXAMPLE_DICT.vector_predictor_values.map
      (fun m => scaleRows 3 m),
    scalar_target_values := FIRST_EXAMPLE_DICT.scalar_target_values.map
      (fun col => col.map (fun x => x * 4)),
    vector_target_values := FIRST_EXAMPLE_DICT.vector_target_values.map
      (fun m => scaleRows 5 m),
    valid_times := FIRST_EXAMPLE_DICT.valid_times.map (fun t => t * 6),
    standard_atmo_flags := FIRST_EXAMPLE_DICT.standard_atmo_flags.map (fun f => f + 1),
    example_id_strings := [r"FOO", r"BAR", r"MOO", r"HAL"] }

/-- Fixture of `example_utils_test.py`: the expected concatenation of the
first and second collections. -/
def CONCAT_EXAMPLE_DICT : ExampleDict :=
  { FIRST_EXAMPLE_DICT with
    scalar_predictor_values := List.zipWith (fun a b => a ++ b)
      FIRST_EXAMPLE_DICT.scalar_predictor_values SECOND_EXAMPLE_DICT.scalar_predictor_values,
    vector_predictor_values := List.zipWith (fun a b => a ++ b)
      FIRST_EXAMPLE_DICT.vector_predictor_values SECOND_EXAMPLE_DICT.vector_predictor_values,
    scalar_target_values := List.zipWith (fun a b => a ++ b)
      FIRST_EXAMPLE_DICT.scalar_target_values SECOND_EXAMPLE_DICT.scalar_target_values,
    vector_target_values := List.zipWith (fun a b => a ++ b)
      FIRST_EXAMPLE_DICT.vector_target_values SECOND_EXAMPLE_DICT.vector_target_values,
    valid_times := FIRST_EXAMPLE_DICT.valid_times ++ SECOND_EXAMPLE_DICT.valid_times,
    standard_atmo_flags :=
      FIRST_EXAMPLE_DICT.standard_atmo_flags ++ SECOND_EXAMPLE_DICT.standard_atmo_flags,
    example_id_strings :=
      FIRST_EXAMPLE_DICT.example_id_strings ++ SECOND_EXAMPLE_DICT.example_id_strings }

/-- Fixture of `example_utils_test.py`: the second collection with an
extra scalar-predictor name appended (the bad-fields concatenation
test). -/
def SECOND_EXAMPLE_DICT_BAD_FIELDS : ExampleDict :=
  { SECOND_EXAMPLE_DICT with
    scalar_predictor_names := SECOND_EXAMPLE_DICT.scalar_predictor_names ++ [ALBEDO_NAME] }

/-- Fixture of `example_utils_test.py`: the collection for the
example-ID-codec tests (temperature stored at the single height 10 m). -/
def EXAMPLE_DICT_FOR_IDS : ExampleDict :=
  { scalar_predictor_names := [LATITUDE_NAME, LONGITUDE_NAME, ZENITH_ANGLE_NAME],
    scalar_predictor_values :=
      [[40, 40.04, 53.5, 40.0381113], [255, 254.74, 246.5, 254.7440276],
       [0.5, 0.666, 0.7777777, 1]],
    vector_predictor_names := [TEMPERATURE_NAME],
    vector_predictor_values := [[[230], [240], [250], [260]]],
    heights := [10],
    valid_times := [0, 10000000, 100000000, 1000000000],
    standard_atmo_flags :=
      [MIDLATITUDE_WINTER_ENUM, MIDLATITUDE_WINTER_ENUM, SUBARCTIC_WINTER_ENUM,
       MIDLATITUDE_WINTER_ENUM] }

/-- Fixture of `example_utils_test.py`: the four expected example-ID
strings. -/
def EXAMPLE_ID_STRINGS : List String :=
  [r"lat=40.000000_long=255.000000_zenith-angle-rad=0.500000_time=0000000000_atmo=3_temp-10m-kelvins=230.000000",
   r"lat=40.040000_long=254.740000_zenith-angle-rad=0.666000_time=0010000000_atmo=3_temp-10m-kelvins=240.000000",
   r"lat=53.500000_long=246.500000_zenith-angle-rad=0.777778_time=0100000000_atmo=5_temp-10m-kelvins=250.000000",
   r"lat=40.038111_long=254.744028_zenith-angle-rad=1.000000_time=1000000000_atmo=3_temp-10m-kelvins=260.000000"]

/-- Fixture of `example_utils_test.py`: real heights of the padding
tests. -/
def REAL_HEIGHTS_M_AGL : List ℚ := [10, 20, 40, 60, 80, 10000, 50000]

/-- Fixture of `example_utils_test.py`: real heights extended by ten
synthetic padding heights. -/
def PADDED_HEIGHTS_M_AGL : List ℚ :=
  REAL_HEIGHTS_M_AGL ++
    [1050000, 2050000, 3050000, 4050000, 5050000, 6050000, 7050000, 8050000, 9050000, 10050000]

/-- Fixture of `example_utils_test.py`: specific-humidity matrix of the
padding tests (3 examples by 7 heights). -/
def PAD_HUMIDITY_MATRIX : List (List ℚ) :=
  scaleRows 0.001
    [[1, 2, 3, 4, 5, 6, 7], [2, 4, 6, 8, 10, 12, 14], [3, 6, 9, 12, 15, 18, 21]]

/-- Fixture of `example_utils_test.py`: temperature matrix of the padding
tests. -/
def PAD_TEMPERATURE_MATRIX : List (List ℚ) :=
  shiftRows 273.15
    [[10, 11, 12, 13, 14, 15, 16], [20, 21, 22, 23, 24, 25, 26], [30, 31, 32, 33, 34, 35, 36]]

/-- Fixture of `example_utils_test.py`: upward-flux matrix of the padding
tests. -/
def PAD_UP_FLUX_MATRIX : List (List ℚ) :=
  [[100, 150, 200, 250, 300, 350, 400], [400, 500, 600, 700, 800, 900, 1000],
   [0, 0, 0, 0, 0, 0, 0]]

/-- Fixture of `example_utils_test.py`: downward-flux matrix of the
padding tests. -/
def PAD_DOWN_FLUX_MATRIX : List (List ℚ) :=
  [[50, 125, 200, 275, 350, 425, 525], [500, 550, 600, 650, 700, 750, 850],
   [1000, 1000, 1000, 1000, 1000, 1000, 1400]]

/-- Fixture of `example_utils_test.py`: the collection before height
padding. -/
def EXAMPLE_DICT_SANS_PADDING : ExampleDict :=
  { vector_predictor_names := [SPECIFIC_HUMIDITY_NAME, TEMPERATURE_NAME],
    vector_predictor_values := [PAD_HUMIDITY_MATRIX, PAD_TEMPERATURE_MATRIX],
    vector_target_names := [SHORTWAVE_UP_FLUX_NAME, SHORTWAVE_DOWN_FLUX_NAME],
    vector_target_values := [PAD_UP_FLUX_MATRIX, PAD_DOWN_FLUX_MATRIX],
    valid_times := VALID_TIMES_UNIX_SEC,
    heights := REAL_HEIGHTS_M_AGL }

/-- Extends every row of a matrix by repeating its last entry. -/
def padRowsEdge (k : Nat) (m : List (List ℚ)) : List (List ℚ) :=
  m.map (fun row => row ++ List.replicate k (row.getLastD 0))

/-- Extends every row of a matrix with zeros. -/
def padRowsZero (k : Nat) (m : List (List ℚ)) : List (List ℚ) :=
  m.map (fun row => row ++ List.replicate k 0)

/-- Fixture of `example_utils_test.py`: the expected collection after
`_add_height_padding` — vector predictors repeat their topmost value at
the ten appended heights, vector targets are zero there. -/
def EXAMPLE_DICT_WITH_PADDING : ExampleDict :=
  { EXAMPLE_DICT_SANS_PADDING with
    vector_predictor_values :=
      [padRowsEdge 10 PAD_HUMIDITY_MATRIX, padRowsEdge 10 PAD_TEMPERATURE_MATRIX],
    vector_target_values :=
      [padRowsZero 10 PAD_UP_FLUX_MATRIX, padRowsZero 10 PAD_DOWN_FLUX_MATRIX],
    heights := PADDED_HEIGHTS_M_AGL }

/-- Fixture of `example_utils_test.py`: the desired heights of the
padded-subset test (all beyond the real grid top). -/
def PADDED_HEIGHTS_TO_KEEP_M_AGL : List ℚ :=
  [2050000, 3050000, 4050000, 5050000, 6050000, 7050000, 8050000, 9050000, 10050000]

/-- Fixture of `example_utils_test.py`: the expected collection of the
padded-subset test (the last nine height columns of the padded
collection). -/
def EXAMPLE_DICT_PADDED_SELECT_HEIGHTS : ExampleDict :=
  { EXAMPLE_DICT_SANS_PADDING with
    vector_predictor_values :=
      [PAD_HUMIDITY_MATRIX.map (fun row => List.replicate 9 (row.getLastD 0)),
       PAD_TEMPERATURE_MATRIX.map (fun row => List.replicate 9 (row.getLastD 0))],
    vector_target_values :=
      [PAD_UP_FLUX_MATRIX.map (fun _ => List.replicate 9 0),
       PAD_DOWN_FLUX_MATRIX.map (fun _ => List.replicate 9 0)],
    heights := PADDED_HEIGHTS_TO_KEEP_M_AGL }

instance : Inhabited ExampleDict := ⟨{}⟩

/-- Componentwise closeness of two equal-length lists within the test
tolerance (the numpy allclose check of the test suite). -/
def allClose (a b : List ℚ) : Prop :=
  a.length = b.length ∧ ∀ p ∈ a.zip b, |p.1 - p.2| ≤ TOLERANCE

instance (a b : List ℚ) : Decidable (allClose a b) := by
  unfold allClose; infer_instance

/-- Fixture of `example_utils_test.py`: the metadata expected from
parsing the four example-ID strings (each float rounded to six decimal
places, times and atmosphere flags exact integers). -/
def EXAMPLE_ID_METADATA : ExampleIdMeta :=
  { latitudes := [40, 40.04, 53.5, 40.038111],
    longitudes := [255, 254.74, 246.5, 254.744028],
    zenith_angles := [0.5, 0.666, 0.777778, 1],
    valid_times := [0, 10000000, 100000000, 1000000000],
    standard_atmo_flags := [3, 3, 5, 3],
    temperatures_10m := [230, 240, 250, 260] }

/-! Theorems.  General-purpose lemmas come first, then one theorem per
claim (with a witness where the theorem carries hypotheses). -/

theorem qlt_isTrue {a b : ℚ} (h : a < b) : qlt a b = true := by
  simp [qlt, h]

theorem qlt_isFalse {a b : ℚ} (h : ¬a < b) : qlt a b = false := by
  simp [qlt, h]

theorem qle_isTrue {a b : ℚ} (h : a ≤ b) : qle a b = true := by
  simp [qle, h]

theorem qle_isFalse {a b : ℚ} (h : ¬a ≤ b) : qle a b = false := by
  simp [qle, h]

theorem qmem_isTrue {a : ℚ} {l : List ℚ} (h : a ∈ l) : qmem a l = true := by
  simp [qmem, h]

theorem qmem_isFalse {a : ℚ} {l : List ℚ} (h : a ∉ l) : qmem a l = false := by
  simp [qmem, h]

theorem deltasFrom_length (xs : List ℚ) : ∀ p, (deltasFrom p xs).length = xs.length := by
  induction xs with
  | nil => intro p; rfl
  | cons x xs ih => intro p; simp [deltasFrom, ih x]

theorem cumsumFrom_deltasFrom (xs : List ℚ) : ∀ p, cumsumFrom p (deltasFrom p xs) = xs := by
  induction xs with
  | nil => intro p; rfl
  | cons x xs ih =>
      intro p
      have hx : p + (x - p) = x := by ring
      simp [deltasFrom, cumsumFrom, hx, ih x]

theorem zipWith_div_mul_cancel :
    ∀ l w : List ℚ, l.length ≤ w.length → (∀ x ∈ w, x ≠ 0) →
      List.zipWith (fun x wi => x * wi) (List.zipWith (fun x wi => x / wi) l w) w = l := by
  intro l
  induction l with
  | nil => intro w _ _; simp
  | cons a l ih =>
      intro w hlen hnz
      cases w with
      | nil => simp at hlen
      | cons b w =>
          simp only [List.zipWith]
          rw [div_mul_cancel₀ a (hnz b (by simp)),
            ih w (by simpa using hlen) (fun x hx => hnz x (by simp [hx]))]

theorem roundTripProfile (p w : List ℚ) (hlen : p.length ≤ w.length)
    (hnz : ∀ x ∈ w, x ≠ 0) :
    cumsum (List.zipWith (fun x wi => x * wi)
      (List.zipWith (fun x wi => x / wi) (deltas p) w) w) = p := by
  rw [zipWith_div_mul_cancel (deltas p) w (by rw [deltas, deltasFrom_length]; exact hlen) hnz]
  exact cumsumFrom_deltasFrom p 0

theorem consecutiveDiffs_cons_cons (a b : ℚ) (l : List ℚ) :
    consecutiveDiffs (a :: b :: l) = (b - a) :: consecutiveDiffs (b :: l) := rfl

theorem consecutiveDiffs_pos (l : List ℚ) (hch : l.Chain' (· < ·)) :
    ∀ x ∈ consecutiveDiffs l, 0 < x := by
  induction l with
  | nil => simp [consecutiveDiffs]
  | cons a l ih =>
      cases l with
      | nil => simp [consecutiveDiffs]
      | cons b l =>
          rw [consecutiveDiffs_cons_cons]
          intro x hx
          rcases List.mem_cons.mp hx with h | h
          · have hab := (List.chain'_cons.mp hch).1
            subst h
            linarith
          · exact ih (List.chain'_cons.mp hch).2 x h

theorem midpoints_cons_cons (a b : ℚ) (l : List ℚ) :
    midpoints (a :: b :: l) = (a + b) / 2 :: midpoints (b :: l) := rfl

theorem midpoints_chain (l : List ℚ) (h : l.Chain' (· < ·)) :
    (midpoints l).Chain' (· < ·) := by
  induction l with
  | nil => simp [midpoints]
  | cons a l ih =>
      cases l with
      | nil => simp [midpoints]
      | cons b l =>
          cases l with
          | nil => simp [midpoints]
          | cons c l =>
              rw [midpoints_cons_cons, midpoints_cons_cons]
              rw [List.chain'_cons]
              constructor
              · have h1 := (List.chain'_cons.mp h).1
                have h2 := (List.chain'_cons.mp (List.chain'_cons.mp h).2).1
                linarith
              · rw [← midpoints_cons_cons]
                exact ih (List.chain'_cons.mp h).2

theorem getLastD_cons_cons (a b : ℚ) (l : List ℚ) (d : ℚ) :
    (a :: b :: l).getLastD d = (b :: l).getLastD d := by
  simp [List.getLastD_cons]

theorem midpoints_getLastD_lt (l : List ℚ) (h : l.Chain' (· < ·)) (hlen : 2 ≤ l.length) :
    (midpoints l).getLastD 0 < l.getLastD 0 := by
  induction l with
  | nil => simp at hlen
  | cons a l ih =>
      cases l with
      | nil => simp at hlen
      | cons b l =>
          cases l with
          | nil =>
              have hab := (List.chain'_cons.mp h).1
              simp [midpoints, List.getLastD_cons]
              linarith
          | cons c l =>
              rw [midpoints_cons_cons, midpoints_cons_cons b c l,
                getLastD_cons_cons a b (c :: l), getLastD_cons_cons,
                ← midpoints_cons_cons b c l]
              exact ih (List.chain'_cons.mp h).2 (by simp)

theorem get_grid_cell_edges_cons (a b : ℚ) (rest : List ℚ) :
    get_grid_cell_edges (a :: b :: rest) =
      (2 * a - (a + b) / 2) :: (midpoints (a :: b :: rest) ++
        [2 * (a :: b :: rest).getLastD 0 - (midpoints (a :: b :: rest)).getLastD 0]) := rfl

theorem edges_chain (a b : ℚ) (rest : List ℚ)
    (h : (a :: b :: rest).Chain' (· < ·)) :
    (get_grid_cell_edges (a :: b :: rest)).Chain' (· < ·) := by
  have hab : a < b := (List.chain'_cons.mp h).1
  have hmids : (midpoints (a :: b :: rest)).Chain' (· < ·) := midpoints_chain _ h
  have hlast : (midpoints (a :: b :: rest)).getLastD 0 < (a :: b :: rest).getLastD 0 :=
    midpoints_getLastD_lt _ h (by simp)
  have happ : ((midpoints (a :: b :: rest)) ++
      [2 * (a :: b :: rest).getLastD 0 - (midpoints (a :: b :: rest)).getLastD 0]).Chain'
      (· < ·) := by
    rw [List.chain'_append]
    refine ⟨hmids, List.chain'_singleton _, ?_⟩
    intro x hx y hy
    simp only [List.head?_cons, Option.mem_def, Option.some.injEq] at hy
    subst hy
    have hxval : (midpoints (a :: b :: rest)).getLastD 0 = x := by
      rw [List.getLastD_eq_getLast?, hx]
      rfl
    rw [← hxval]
    linarith
  rw [get_grid_cell_edges_cons, midpoints_cons_cons, List.cons_append]
  rw [List.chain'_cons]
  constructor
  · linarith
  · rw [← List.cons_append, ← midpoints_cons_cons]
    exact happ

theorem widths_pos (hs : List ℚ) (hchain : hs.Chain' (· < ·)) (hlen : 2 ≤ hs.length) :
    ∀ x ∈ get_grid_cell_widths (get_grid_cell_edges hs), 0 < x := by
  cases hs with
  | nil => simp at hlen
  | cons a l =>
      cases l with
      | nil => simp at hlen
      | cons b rest => exact consecutiveDiffs_pos _ (edges_chain a b rest hchain)

theorem midpoints_length (l : List ℚ) : (midpoints l).length = l.length - 1 := by
  induction l with
  | nil => simp [midpoints]
  | cons a l ih =>
      cases l with
      | nil => simp [midpoints]
      | cons b l =>
          rw [midpoints_cons_cons]
          simp at ih ⊢
          omega

theorem consecutiveDiffs_length (l : List ℚ) : (consecutiveDiffs l).length = l.length - 1 := by
  cases l with
  | nil => simp [consecutiveDiffs]
  | cons a l => simp [consecutiveDiffs]

theorem grid_cell_widths_length (hs : List ℚ) (hlen : 2 ≤ hs.length) :
    (get_grid_cell_widths (get_grid_cell_edges hs)).length = hs.length := by
  cases hs with
  | nil => simp at hlen
  | cons a l =>
      cases l with
      | nil => simp at hlen
      | cons b rest =>
          rw [get_grid_cell_widths, get_grid_cell_edges_cons, consecutiveDiffs_length]
          simp [midpoints_length]


theorem isMaxRun_nil (s e : Nat) : ¬IsMaxRun [] s e := by
  rintro ⟨_, hlen, _, _, _⟩
  simp at hlen

theorem isMaxRun_false_cons (m : List Bool) (s e : Nat) :
    IsMaxRun (false :: m) s e ↔ 1 ≤ s ∧ 1 ≤ e ∧ IsMaxRun m (s - 1) (e - 1) := by
  constructor
  · rintro ⟨hse, helen, hint, hleft, hright⟩
    have hs1 : 1 ≤ s := by
      rcases Nat.eq_zero_or_pos s with rfl | hs1
      · have h0 := hint 0 (Nat.le_refl 0) (Nat.zero_le e)
        simp [List.getD_cons_zero] at h0
      · exact hs1
    have he1 : 1 ≤ e := le_trans hs1 hse
    refine ⟨hs1, he1, by omega, by simp at helen; omega, ?_, ?_, ?_⟩
    · intro i h1 h2
      have h := hint (i + 1) (by omega) (by omega)
      rwa [List.getD_cons_succ] at h
    · rcases hleft with h0 | hl
      · exact absurd h0 (by omega)
      · rcases Nat.lt_or_ge s 2 with h2 | h2
        · left; omega
        · right
          rw [show s - 1 = (s - 2) + 1 from by omega, List.getD_cons_succ] at hl
          rw [show s - 1 - 1 = s - 2 from by omega]
          exact hl
    · rcases hright with h0 | hr
      · left; simp at h0; omega
      · right
        rw [List.getD_cons_succ] at hr
        rw [show e - 1 + 1 = e from by omega]
        exact hr
  · rintro ⟨hs1, he1, hse, helen, hint, hleft, hright⟩
    refine ⟨by omega, by simp; omega, ?_, ?_, ?_⟩
    · intro i hi1 hi2
      obtain ⟨j, rfl⟩ : ∃ j, i = j + 1 := ⟨i - 1, by omega⟩
      rw [List.getD_cons_succ]
      exact hint j (by omega) (by omega)
    · rcases Nat.lt_or_ge s 2 with h2 | h2
      · right
        rw [show s - 1 = 0 from by omega, List.getD_cons_zero]
      · right
        rcases hleft with h0 | hl
        · exact absurd h0 (by omega)
        · rw [show s - 1 = (s - 2) + 1 from by omega, List.getD_cons_succ]
          rw [show s - 1 - 1 = s - 2 from by omega] at hl
          exact hl
    · rcases hright with h0 | hr
      · left; simp; omega
      · right
        rw [List.getD_cons_succ]
        rw [show e - 1 + 1 = e from by omega] at hr
        exact hr

theorem isMaxRun_true_cons_pos (m : List Bool) (s e : Nat) (hs : 1 ≤ s) :
    IsMaxRun (true :: m) s e ↔ 2 ≤ s ∧ 1 ≤ e ∧ IsMaxRun m (s - 1) (e - 1) := by
  constructor
  · rintro ⟨hse, helen, hint, hleft, hright⟩
    have hs2 : 2 ≤ s := by
      rcases Nat.lt_or_ge s 2 with h2 | h2
      · have hseq : s = 1 := by omega
        rcases hleft with h0 | hl
        · omega
        · rw [hseq] at hl
          simp [List.getD_cons_zero] at hl
      · exact h2
    have he1 : 1 ≤ e := by omega
    refine ⟨hs2, he1, by omega, by simp at helen; omega, ?_, ?_, ?_⟩
    · intro i h1 h2
      have h := hint (i + 1) (by omega) (by omega)
      rwa [List.getD_cons_succ] at h
    · right
      rcases hleft with h0 | hl
      · exact absurd h0 (by omega)
      · rw [show s - 1 = (s - 2) + 1 from by omega, List.getD_cons_succ] at hl
        rw [show s - 1 - 1 = s - 2 from by omega]
        exact hl
    · rcases hright with h0 | hr
      · left; simp at h0; omega
      · right
        rw [List.getD_cons_succ] at hr
        rw [show e - 1 + 1 = e from by omega]
        exact hr
  · rintro ⟨hs2, he1, hse, helen, hint, hleft, hright⟩
    refine ⟨by omega, by simp; omega, ?_, ?_, ?_⟩
    · intro i hi1 hi2
      obtain ⟨j, rfl⟩ : ∃ j, i = j + 1 := ⟨i - 1, by omega⟩
      rw [List.getD_cons_succ]
      exact hint j (by omega) (by omega)
    · right
      rcases hleft with h0 | hl
      · exact absurd h0 (by omega)
      · rw [show s - 1 = (s - 2) + 1 from by omega, List.getD_cons_succ]
        rw [show s - 1 - 1 = s - 2 from by omega] at hl
        exact hl
    · rcases hright with h0 | hr
      · left; simp; omega
      · right
        rw [List.getD_cons_succ]
        rw [show e - 1 + 1 = e from by omega] at hr
        exact hr

theorem isMaxRun_true_cons_zero (m : List Bool) (e : Nat) :
    IsMaxRun (true :: m) 0 e ↔
      (e = 0 ∧ m.getD 0 false = false) ∨ (1 ≤ e ∧ IsMaxRun m 0 (e - 1)) := by
  constructor
  · rintro ⟨hse, helen, hint, hleft, hright⟩
    rcases Nat.eq_zero_or_pos e with rfl | he1
    · left
      refine ⟨rfl, ?_⟩
      rcases hright with h0 | hr
      · have hm : m.length = 0 := by simp only [List.length_cons] at h0; omega
        rw [List.eq_nil_of_length_eq_zero hm]
        rfl
      · rwa [List.getD_cons_succ] at hr
    · right
      refine ⟨he1, Nat.zero_le _, by simp at helen; omega, ?_, Or.inl rfl, ?_⟩
      · intro i h1 h2
        have h := hint (i + 1) (by omega) (by omega)
        rwa [List.getD_cons_succ] at h
      · rcases hright with h0 | hr
        · left; simp at h0; omega
        · right
          rw [List.getD_cons_succ] at hr
          rw [show e - 1 + 1 = e from by omega]
          exact hr
  · rintro (⟨rfl, hm⟩ | ⟨he1, hse, helen, hint, hleft, hright⟩)
    · refine ⟨Nat.le_refl 0, by simp, ?_, Or.inl rfl, ?_⟩
      · intro i h1 h2
        have : i = 0 := by omega
        subst this
        rw [List.getD_cons_zero]
      · right
        rw [List.getD_cons_succ]
        exact hm
    · refine ⟨Nat.zero_le _, by simp; omega, ?_, Or.inl rfl, ?_⟩
      · intro i _ hi2
        rcases Nat.eq_zero_or_pos i with rfl | hi1
        · rw [List.getD_cons_zero]
        · obtain ⟨j, rfl⟩ : ∃ j, i = j + 1 := ⟨i - 1, by omega⟩
          rw [List.getD_cons_succ]
          exact hint j (by omega) (by omega)
      · rcases hright with h0 | hr
        · left; simp; omega
        · right
          rw [List.getD_cons_succ]
          rw [show e - 1 + 1 = e from by omega] at hr
          exact hr


theorem mem_shiftRuns (rs : List (Nat × Nat)) (s e : Nat) :
    (s, e) ∈ shiftRuns rs ↔ 1 ≤ s ∧ 1 ≤ e ∧ (s - 1, e - 1) ∈ rs := by
  constructor
  · intro h
    rcases List.mem_map.mp h with ⟨⟨a, b⟩, hmem, heq⟩
    simp only [Prod.mk.injEq] at heq
    refine ⟨by omega, by omega, ?_⟩
    rw [show s - 1 = a from by omega, show e - 1 = b from by omega]
    exact hmem
  · rintro ⟨hs, he, hmem⟩
    refine List.mem_map.mpr ⟨(s - 1, e - 1), hmem, ?_⟩
    simp only [Prod.mk.injEq]
    omega

theorem shiftRuns_fst_pos (rs : List (Nat × Nat)) :
    ∀ p ∈ shiftRuns rs, 1 ≤ p.1 := by
  intro p hp
  rcases List.mem_map.mp hp with ⟨q, _, heq⟩
  subst heq
  omega

theorem boolRuns_false_eq (rest : List Bool) :
    boolRuns (false :: rest) = shiftRuns (boolRuns rest) := rfl

theorem boolRuns_true_head (rest : List Bool) :
    ∃ e rs, boolRuns (true :: rest) = (0, e) :: rs ∧ ∀ p ∈ rs, 1 ≤ p.1 := by
  rcases hbr : boolRuns rest with _ | ⟨⟨s0, e0⟩, rs0⟩
  · exact ⟨0, shiftRuns (boolRuns rest), by rw [boolRuns, hbr], by
      rw [hbr]; intro p hp; simp [shiftRuns] at hp⟩
  · cases s0 with
    | zero =>
        refine ⟨e0 + 1, shiftRuns rs0, ?_, shiftRuns_fst_pos rs0⟩
        rw [show boolRuns (true :: rest) = (match boolRuns rest with
          | (0, e) :: rs => (0, e + 1) :: shiftRuns rs
          | rs => (0, 0) :: shiftRuns rs) from rfl, hbr]
    | succ s0 =>
        refine ⟨0, shiftRuns ((s0 + 1, e0) :: rs0), ?_, shiftRuns_fst_pos _⟩
        rw [show boolRuns (true :: rest) = (match boolRuns rest with
          | (0, e) :: rs => (0, e + 1) :: shiftRuns rs
          | rs => (0, 0) :: shiftRuns rs) from rfl, hbr]
        rfl

theorem boolRuns_fst_zero_head (m : List Bool) (e : Nat) (h : (0, e) ∈ boolRuns m) :
    ∃ rs, boolRuns m = (0, e) :: rs := by
  cases m with
  | nil => simp [boolRuns] at h
  | cons x rest =>
      cases x with
      | false =>
          rw [boolRuns_false_eq] at h
          have := shiftRuns_fst_pos (boolRuns rest) _ h
          simp at this
      | true =>
          obtain ⟨e0, rs, heq, htail⟩ := boolRuns_true_head rest
          rw [heq] at h
          rcases List.mem_cons.mp h with h | h
          · simp only [Prod.mk.injEq] at h
            exact ⟨rs, by rw [heq, h.2]⟩
          · have := htail _ h
            simp at this

theorem boolRuns_nil_or_pos_head_getD (rest : List Bool)
    (h : boolRuns rest = [] ∨ ∃ s0 e0 rs, boolRuns rest = (s0 + 1, e0) :: rs) :
    rest.getD 0 false = false := by
  cases rest with
  | nil => rfl
  | cons x rest2 =>
      cases x with
      | false => rfl
      | true =>
          obtain ⟨e0, rs, heq, _⟩ := boolRuns_true_head rest2
          rcases h with h | ⟨s0, e0h, rsh, h⟩
          · rw [heq] at h; cases h
          · rw [heq] at h
            simp only [List.cons.injEq, Prod.mk.injEq] at h
            omega

theorem isMaxRun_zero_le (m : List Bool) (a b : Nat) (ha : IsMaxRun m 0 a)
    (hb : IsMaxRun m 0 b) : a ≤ b := by
  by_contra hcon
  push_neg at hcon
  rcases hb.2.2.2.2 with h1 | h1
  · have := ha.2.1
    omega
  · have h2 := ha.2.2.1 (b + 1) (by omega) (by omega)
    rw [h1] at h2
    cases h2

theorem isMaxRun_zero_unique (m : List Bool) (a b : Nat) (ha : IsMaxRun m 0 a)
    (hb : IsMaxRun m 0 b) : a = b :=
  le_antisymm (isMaxRun_zero_le m a b ha hb) (isMaxRun_zero_le m b a hb ha)


theorem boolRuns_tail_fst_pos (m : List Bool) (p : Nat × Nat) (rs : List (Nat × Nat))
    (h : boolRuns m = p :: rs) : ∀ q ∈ rs, 1 ≤ q.1 := by
  cases m with
  | nil => cases h
  | cons x rest =>
      cases x with
      | false =>
          intro q hq
          refine shiftRuns_fst_pos (boolRuns rest) q ?_
          rw [boolRuns_false_eq] at h
          rw [h]
          exact List.mem_cons_of_mem _ hq
      | true =>
          obtain ⟨e0, rs0, heq, htail⟩ := boolRuns_true_head rest
          rw [heq] at h
          simp only [List.cons.injEq] at h
          intro q hq
          exact htail q (h.2 ▸ hq)

theorem boolRuns_true_eq_merge (rest : List Bool) (e0 : Nat) (rs : List (Nat × Nat))
    (h : boolRuns rest = (0, e0) :: rs) :
    boolRuns (true :: rest) = (0, e0 + 1) :: shiftRuns rs := by
  rw [show boolRuns (true :: rest) = (match boolRuns rest with
    | (0, e) :: rs => (0, e + 1) :: shiftRuns rs
    | rs => (0, 0) :: shiftRuns rs) from rfl, h]

theorem boolRuns_true_eq_pos (rest : List Bool) (s0 e0 : Nat) (rs : List (Nat × Nat))
    (h : boolRuns rest = (s0 + 1, e0) :: rs) :
    boolRuns (true :: rest) = (0, 0) :: shiftRuns ((s0 + 1, e0) :: rs) := by
  rw [show boolRuns (true :: rest) = (match boolRuns rest with
    | (0, e) :: rs => (0, e + 1) :: shiftRuns rs
    | rs => (0, 0) :: shiftRuns rs) from rfl, h]
  rfl

theorem boolRuns_true_eq_nil (rest : List Bool) (h : boolRuns rest = []) :
    boolRuns (true :: rest) = [(0, 0)] := by
  rw [show boolRuns (true :: rest) = (match boolRuns rest with
    | (0, e) :: rs => (0, e + 1) :: shiftRuns rs
    | rs => (0, 0) :: shiftRuns rs) from rfl, h]
  rfl

theorem mem_boolRuns (m : List Bool) :
    ∀ s e, (s, e) ∈ boolRuns m ↔ IsMaxRun m s e := by
  induction m with
  | nil =>
      intro s e
      constructor
      · intro h; simp [boolRuns] at h
      · intro h; exact absurd h (isMaxRun_nil s e)
  | cons x rest ih =>
      cases x with
      | false =>
          intro s e
          rw [boolRuns_false_eq, mem_shiftRuns, isMaxRun_false_cons, ih (s - 1) (e - 1)]
      | true =>
          intro s e
          rcases hbr : boolRuns rest with _ | ⟨⟨s0, e0⟩, rs⟩
          · rw [boolRuns_true_eq_nil rest hbr]
            constructor
            · intro h
              have heq : (s, e) = ((0 : Nat), (0 : Nat)) := by simpa using h
              simp only [Prod.mk.injEq] at heq
              obtain ⟨rfl, rfl⟩ := heq
              rw [isMaxRun_true_cons_zero]
              exact Or.inl ⟨rfl, boolRuns_nil_or_pos_head_getD rest (Or.inl hbr)⟩
            · intro h
              rcases Nat.eq_zero_or_pos s with rfl | hs
              · rcases (isMaxRun_true_cons_zero rest e).mp h with ⟨rfl, _⟩ | ⟨he1, hmr⟩
                · simp
                · exfalso
                  have hm := (ih 0 (e - 1)).mpr hmr
                  rw [hbr] at hm
                  simp at hm
              · exfalso
                have h2 := (isMaxRun_true_cons_pos rest s e hs).mp h
                have hm := (ih (s - 1) (e - 1)).mpr h2.2.2
                rw [hbr] at hm
                simp at hm
          · cases s0 with
            | zero =>
                rw [boolRuns_true_eq_merge rest e0 rs hbr]
                have hhead : IsMaxRun rest 0 e0 :=
                  (ih 0 e0).mp (by rw [hbr]; exact List.mem_cons_self _ _)
                have htail : ∀ p ∈ rs, 1 ≤ p.1 := boolRuns_tail_fst_pos rest (0, e0) rs hbr
                constructor
                · intro hmem
                  rcases List.mem_cons.mp hmem with heq | hmem2
                  · simp only [Prod.mk.injEq] at heq
                    obtain ⟨rfl, rfl⟩ := heq
                    rw [isMaxRun_true_cons_zero]
                    exact Or.inr ⟨by omega, by simpa using hhead⟩
                  · rcases (mem_shiftRuns rs s e).mp hmem2 with ⟨hs1, he1, hmem3⟩
                    have hs2 : 1 ≤ s - 1 := htail _ hmem3
                    have hmr : IsMaxRun rest (s - 1) (e - 1) :=
                      (ih (s - 1) (e - 1)).mp (by rw [hbr]; exact List.mem_cons_of_mem _ hmem3)
                    rw [isMaxRun_true_cons_pos rest s e (by omega)]
                    exact ⟨by omega, he1, hmr⟩
                · intro h
                  rcases Nat.eq_zero_or_pos s with rfl | hs
                  · rcases (isMaxRun_true_cons_zero rest e).mp h with ⟨rfl, hz⟩ | ⟨he1, hmr⟩
                    · exfalso
                      have hg := hhead.2.2.1 0 (Nat.le_refl 0) (Nat.zero_le e0)
                      rw [hz] at hg
                      cases hg
                    · have heq : e - 1 = e0 := isMaxRun_zero_unique rest _ _ hmr hhead
                      have he : e = e0 + 1 := by omega
                      have heq2 : ((0 : Nat), e) = ((0 : Nat), e0 + 1) := by
                        rw [he]
                      rw [heq2]
                      exact List.mem_cons_self _ _
                  · have h2 := (isMaxRun_true_cons_pos rest s e hs).mp h
                    have hmem3 := (ih (s - 1) (e - 1)).mpr h2.2.2
                    rw [hbr] at hmem3
                    rcases List.mem_cons.mp hmem3 with heq | hmem4
                    · exfalso
                      simp only [Prod.mk.injEq] at heq
                      omega
                    · exact List.mem_cons_of_mem _
                        ((mem_shiftRuns rs s e).mpr ⟨by omega, by omega, hmem4⟩)
            | succ s0 =>
                rw [boolRuns_true_eq_pos rest s0 e0 rs hbr]
                have hgd : rest.getD 0 false = false :=
                  boolRuns_nil_or_pos_head_getD rest (Or.inr ⟨s0, e0, rs, hbr⟩)
                constructor
                · intro hmem
                  rcases List.mem_cons.mp hmem with heq | hmem2
                  · simp only [Prod.mk.injEq] at heq
                    obtain ⟨rfl, rfl⟩ := heq
                    rw [isMaxRun_true_cons_zero]
                    exact Or.inl ⟨rfl, hgd⟩
                  · rcases (mem_shiftRuns _ s e).mp hmem2 with ⟨hs1, he1, hmem3⟩
                    have hmr : IsMaxRun rest (s - 1) (e - 1) :=
                      (ih (s - 1) (e - 1)).mp (by rw [hbr]; exact hmem3)
                    have hs2 : 1 ≤ s - 1 := by
                      by_contra hc
                      push_neg at hc
                      have h0 : s - 1 = 0 := by omega
                      rw [h0] at hmem3
                      obtain ⟨rs2, hhd⟩ := boolRuns_fst_zero_head rest (e - 1)
                        (by rw [hbr]; exact hmem3)
                      rw [hbr] at hhd
                      simp only [List.cons.injEq, Prod.mk.injEq] at hhd
                      omega
                    rw [isMaxRun_true_cons_pos rest s e (by omega)]
                    exact ⟨by omega, he1, hmr⟩
                · intro h
                  rcases Nat.eq_zero_or_pos s with rfl | hs
                  · rcases (isMaxRun_true_cons_zero rest e).mp h with ⟨rfl, _⟩ | ⟨he1, hmr⟩
                    · exact List.mem_cons_self _ _
                    · exfalso
                      have hmem3 := (ih 0 (e - 1)).mpr hmr
                      obtain ⟨rs2, hhd⟩ := boolRuns_fst_zero_head rest (e - 1) hmem3
                      rw [hbr] at hhd
                      simp only [List.cons.injEq, Prod.mk.injEq] at hhd
                      omega
                  · have h2 := (isMaxRun_true_cons_pos rest s e hs).mp h
                    have hmem3 := (ih (s - 1) (e - 1)).mpr h2.2.2
                    refine List.mem_cons_of_mem _
                      ((mem_shiftRuns _ s e).mpr ⟨by omega, by omega, ?_⟩)
                    rw [hbr] at hmem3
                    exact hmem3


theorem map_fst_zip_map_snd {A B : Type} (rs : List (A × B)) :
    (rs.map Prod.fst).zip (rs.map Prod.snd) = rs := by
  induction rs with
  | nil => rfl
  | cons p rest ih => simp [ih]

/-- C8: `find_nonzero_runs` returns two equal-length index lists whose
pairs are exactly the maximal contiguous runs of values exceeding the
tolerance in absolute value; an all-zero length-10 list yields two empty
lists, a fully nonzero length-10 list yields the single run from 0 to 9,
and three concatenated copies of the zero-padded hump yield runs starting
at 3, 21, 39 and ending at 14, 32, 50. -/
theorem find_nonzero_runs_spec :
    (∀ values : List ℚ,
        (find_nonzero_runs values).1.length = (find_nonzero_runs values).2.length) ∧
    (∀ (values : List ℚ) (s e : Nat),
        (s, e) ∈ (find_nonzero_runs values).1.zip (find_nonzero_runs values).2 ↔
          IsMaxRun (nonzeroMask values) s e) ∧
    find_nonzero_runs (List.replicate 10 (0 : ℚ)) = ([], []) ∧
    (∀ values : List ℚ, values.length = 10 → (∀ v ∈ values, TOLERANCE < |v|) →
        find_nonzero_runs values = ([0], [9])) ∧
    find_nonzero_runs FOURTH_VALUES = ([3, 21, 39], [14, 32, 50]) := by
  refine ⟨?_, ?_, ?_, ?_, ?_⟩
  · intro values
    simp [find_nonzero_runs]
  · intro values s e
    rw [show (find_nonzero_runs values).1.zip (find_nonzero_runs values).2 =
        boolRuns (nonzeroMask values) from map_fst_zip_map_snd _]
    exact mem_boolRuns (nonzeroMask values) s e
  · have h0 : qlt TOLERANCE (0 : ℚ) = false := qlt_isFalse (by norm_num [TOLERANCE])
    simp [find_nonzero_runs, nonzeroMask, List.replicate, h0, boolRuns, shiftRuns]
  · intro values hlen hnz
    have hmask : nonzeroMask values = List.replicate 10 true := by
      refine List.eq_replicate_iff.mpr ⟨by simp [nonzeroMask, hlen], ?_⟩
      intro b hb
      simp only [nonzeroMask, List.mem_map] at hb
      obtain ⟨v, hv, rfl⟩ := hb
      exact qlt_isTrue (hnz v hv)
    unfold find_nonzero_runs
    rw [hmask]
    decide
  · norm_num [find_nonzero_runs, FOURTH_VALUES, THIRD_VALUES, nonzeroMask, TOLERANCE,
      boolRuns, shiftRuns, qlt_isTrue, qlt_isFalse, abs]

/-- Witness for the nonzero-run specification: a concrete fully nonzero
length-10 list yields the single run from 0 to 9. -/
theorem find_nonzero_runs_spec_witness :
    find_nonzero_runs [1, 2, 3, 4, 5, 6, 7, 8, 9, 10] = ([0], [9]) :=
  find_nonzero_runs_spec.2.2.2.1 [1, 2, 3, 4, 5, 6, 7, 8, 9, 10] (by simp)
    (by intro v hv; fin_cases hv <;> norm_num [TOLERANCE])

/-- C3: `get_grid_cell_edges` maps the thirteen fixture centers to
exactly the fourteen fixture edges (interior edges are midpoints of
consecutive centers, outer edges symmetric extrapolations), and
`get_grid_cell_widths` maps those edges to the thirteen fixture
widths. -/
theorem grid_cell_edges_widths_spec :
    get_grid_cell_edges CENTER_HEIGHTS_M_AGL = EDGE_HEIGHTS_M_AGL ∧
    get_grid_cell_widths EDGE_HEIGHTS_M_AGL = GRID_CELL_WIDTHS_METRES := by
  constructor
  · norm_num [get_grid_cell_edges, CENTER_HEIGHTS_M_AGL, EDGE_HEIGHTS_M_AGL, midpoints]
  · norm_num [get_grid_cell_widths, consecutiveDiffs, EDGE_HEIGHTS_M_AGL, GRID_CELL_WIDTHS_METRES]

/-- C2: `fluxes_to_heating_rate` on the fixture collection appends the
shortwave-heating-rate vector target; the resulting heating-rate matrix
equals the coefficient 86400 times 9.80665 over 1004 times the
net-flux-difference matrix divided elementwise by the absolute
pressure-difference matrix (written out as literal rationals); every
heating-rate profile has the input's number of height levels; and the
function always preserves the height axis. -/
theorem fluxes_to_heating_rate_spec :
    fluxes_to_heating_rate EXAMPLE_DICT_FLUXES_ONLY = Except.ok EXAMPLE_DICT_WITH_HEATING_RATE ∧
    HEATING_RATE_COEFF = 86400 * (9.80665 / 1004) ∧
    THIS_HEATING_RATE_MATRIX_K_DAY01 =
      [List.replicate 6 (5295591 / 1255000), List.replicate 6 (-5295591 / 1255000),
       List.replicate 6 0] ∧
    (∀ p ∈ EXAMPLE_DICT_WITH_HEATING_RATE.vector_target_values.getD 2 [],
      p.length = EXAMPLE_DICT_FLUXES_ONLY.heights.length) ∧
    (∀ d d2, fluxes_to_heating_rate d = Except.ok d2 → d2.heights = d.heights) := by
  refine ⟨?_, ?_, ?_, ?_, ?_⟩
  · simp [fluxes_to_heating_rate, EXAMPLE_DICT_FLUXES_ONLY, EXAMPLE_DICT_WITH_HEATING_RATE,
      channelOf, List.indexOf, List.findIdx, List.findIdx.go, THIS_PRESSURE_MATRIX_PASCALS,
      THIS_UP_FLUX_MATRIX_W_M02, THIS_DOWN_FLUX_MATRIX_W_M02, THIS_NET_FLUX_DIFF_MATRIX_W02,
      THIS_PRESSURE_DIFF_MATRIX_PASCALS, THIS_HEATING_RATE_MATRIX_K_DAY01, THESE_HEIGHTS_M_AGL,
      VALID_TIMES_UNIX_SEC, scaleRows, profileDiff, consecutiveDiffs, HEATING_RATE_COEFF,
      DAYS_TO_SECONDS, GRAVITY_CONSTANT_M_S02, DRY_AIR_SPECIFIC_HEAT_J_KG01_K01, PRESSURE_NAME,
      SHORTWAVE_UP_FLUX_NAME, SHORTWAVE_DOWN_FLUX_NAME, SHORTWAVE_HEATING_RATE_NAME]
    norm_num
  · norm_num [HEATING_RATE_COEFF, DAYS_TO_SECONDS, GRAVITY_CONSTANT_M_S02,
      DRY_AIR_SPECIFIC_HEAT_J_KG01_K01]
  · norm_num [THIS_HEATING_RATE_MATRIX_K_DAY01, THIS_NET_FLUX_DIFF_MATRIX_W02,
      THIS_PRESSURE_DIFF_MATRIX_PASCALS, scaleRows, HEATING_RATE_COEFF, DAYS_TO_SECONDS,
      GRAVITY_CONSTANT_M_S02, DRY_AIR_SPECIFIC_HEAT_J_KG01_K01, List.replicate]
  · intro p hp
    simp only [EXAMPLE_DICT_WITH_HEATING_RATE, EXAMPLE_DICT_FLUXES_ONLY] at hp ⊢
    norm_num [THIS_HEATING_RATE_MATRIX_K_DAY01, THIS_NET_FLUX_DIFF_MATRIX_W02,
      THIS_PRESSURE_DIFF_MATRIX_PASCALS, scaleRows, THESE_HEIGHTS_M_AGL] at hp ⊢
    rcases hp with h | h | h <;> subst h <;> norm_num
  · intro d d2 h
    unfold fluxes_to_heating_rate at h
    split at h
    · simp only [Except.ok.injEq] at h
      subst h
      rfl
    · exact Except.noConfusion h

/-- Witness for C2: the heights-preservation clause applied at the
fixture collection, discharged via the first clause. -/
theorem fluxes_to_heating_rate_spec_witness :
    EXAMPLE_DICT_WITH_HEATING_RATE.heights = EXAMPLE_DICT_FLUXES_ONLY.heights :=
  fluxes_to_heating_rate_spec.2.2.2.2 EXAMPLE_DICT_FLUXES_ONLY EXAMPLE_DICT_WITH_HEATING_RATE
    fluxes_to_heating_rate_spec.1

set_option maxHeartbeats 2000000 in
/-- C5: `find_cloud_layers` on the fixture collection with minimum path
0.05 and `for_ice = false` returns exactly the fixture cloud mask (first
row all false, second row true at indices 0 through 4 and at index 17,
third row true at indices 1 through 17) and the layer counts 0, 2, 1. -/
theorem find_cloud_layers_spec :
    find_cloud_layers EXAMPLE_DICT_FOR_CLOUD_MASK MIN_PATH_KG_M02 false =
      Except.ok (CLOUD_MASK_MATRIX, CLOUD_LAYER_COUNTS) ∧
    CLOUD_MASK_MATRIX =
      [List.replicate 18 false,
       [true, true, true, true, true] ++ List.replicate 12 false ++ [true],
       false :: List.replicate 17 true] ∧
    CLOUD_LAYER_COUNTS = [0, 2, 1] := by
  refine ⟨?_, rfl, rfl⟩
  norm_num [find_cloud_layers, EXAMPLE_DICT_FOR_CLOUD_MASK, channelOf, List.indexOf, List.findIdx,
    List.findIdx.go, THIS_LWP_MATRIX_KG_M02, scaleRows, UPWARD_LIQUID_WATER_PATH_NAME,
    UPWARD_ICE_WATER_PATH_NAME, deltas, deltasFrom, nonzeroMask, TOLERANCE, MIN_PATH_KG_M02,
    CLOUD_MASK_MATRIX, CLOUD_LAYER_COUNTS, boolRuns, shiftRuns, List.replicate,
    qlt_isTrue, qlt_isFalse, qle_isTrue, qle_isFalse, abs, List.range, List.range.loop]

set_option maxRecDepth 40000 in
set_option maxHeartbeats 2000000 in
/-- C7: `create_example_ids` on the fixture collection produces exactly
the four literal ID strings of the test, and `parse_example_ids` on
those strings recovers the latitude, longitude, zenith-angle and
10-metre-temperature arrays within 1e-6 of the sources and the valid
times and atmosphere flags exactly as integers. -/
theorem example_id_codec_round_trip :
    create_example_ids EXAMPLE_DICT_FOR_IDS = Except.ok EXAMPLE_ID_STRINGS ∧
    parse_example_ids EXAMPLE_ID_STRINGS = some EXAMPLE_ID_METADATA ∧
    allClose EXAMPLE_ID_METADATA.latitudes
      (EXAMPLE_DICT_FOR_IDS.scalar_predictor_values.getD 0 []) ∧
    allClose EXAMPLE_ID_METADATA.longitudes
      (EXAMPLE_DICT_FOR_IDS.scalar_predictor_values.getD 1 []) ∧
    allClose EXAMPLE_ID_METADATA.zenith_angles
      (EXAMPLE_DICT_FOR_IDS.scalar_predictor_values.getD 2 []) ∧
    EXAMPLE_ID_METADATA.valid_times = EXAMPLE_DICT_FOR_IDS.valid_times ∧
    EXAMPLE_ID_METADATA.standard_atmo_flags = EXAMPLE_DICT_FOR_IDS.standard_atmo_flags ∧
    allClose EXAMPLE_ID_METADATA.temperatures_10m
      ((EXAMPLE_DICT_FOR_IDS.vector_predictor_values.getD 0 []).map (fun row => row.getD 0 0)) := by
  have f01 : formatFixed6 40 = ("40.000000").toList := by
    have h : (⌊(40 : ℚ) * 1000000 + 1 / 2⌋) = 40000000 := by norm_num
    simp only [formatFixed6, h]; decide
  have f02 : formatFixed6 40.04 = ("40.040000").toList := by
    have h : (⌊(40.04 : ℚ) * 1000000 + 1 / 2⌋) = 40040000 := by norm_num
    simp only [formatFixed6, h]; decide
  have f03 : formatFixed6 53.5 = ("53.500000").toList := by
    have h : (⌊(53.5 : ℚ) * 1000000 + 1 / 2⌋) = 53500000 := by norm_num
    simp only [formatFixed6, h]; decide
  have f04 : formatFixed6 40.0381113 = ("40.038111").toList := by
    have h : (⌊(40.0381113 : ℚ) * 1000000 + 1 / 2⌋) = 40038111 := by norm_num
    simp only [formatFixed6, h]; decide
  have f05 : formatFixed6 255 = ("255.000000").toList := by
    have h : (⌊(255 : ℚ) * 1000000 + 1 / 2⌋) = 255000000 := by norm_num
    simp only [formatFixed6, h]; decide
  have f06 : formatFixed6 254.74 = ("254.740000").toList := by
    have h : (⌊(254.74 : ℚ) * 1000000 + 1 / 2⌋) = 254740000 := by norm_num
    simp only [formatFixed6, h]; decide
  have f07 : formatFixed6 246.5 = ("246.500000").toList := by
    have h : (⌊(246.5 : ℚ) * 1000000 + 1 / 2⌋) = 246500000 := by norm_num
    simp only [formatFixed6, h]; decide
  have f08 : formatFixed6 254.7440276 = ("254.744028").toList := by
    have h : (⌊(254.7440276 : ℚ) * 1000000 + 1 / 2⌋) = 254744028 := by norm_num
    simp only [formatFixed6, h]; decide
  have f09 : formatFixed6 0.5 = ("0.500000").toList := by
    have h : (⌊(0.5 : ℚ) * 1000000 + 1 / 2⌋) = 500000 := by norm_num
    simp only [formatFixed6, h]; decide
  have f10 : formatFixed6 0.666 = ("0.666000").toList := by
    have h : (⌊(0.666 : ℚ) * 1000000 + 1 / 2⌋) = 666000 := by norm_num
    simp only [formatFixed6, h]; decide
  have f11 : formatFixed6 0.7777777 = ("0.777778").toList := by
    have h : (⌊(0.7777777 : ℚ) * 1000000 + 1 / 2⌋) = 777778 := by norm_num
    simp only [formatFixed6, h]; decide
  have f12 : formatFixed6 1 = ("1.000000").toList := by
    have h : (⌊(1 : ℚ) * 1000000 + 1 / 2⌋) = 1000000 := by norm_num
    simp only [formatFixed6, h]; decide
  have f13 : formatFixed6 230 = ("230.000000").toList := by
    have h : (⌊(230 : ℚ) * 1000000 + 1 / 2⌋) = 230000000 := by norm_num
    simp only [formatFixed6, h]; decide
  have f14 : formatFixed6 240 = ("240.000000").toList := by
    have h : (⌊(240 : ℚ) * 1000000 + 1 / 2⌋) = 240000000 := by norm_num
    simp only [formatFixed6, h]; decide
  have f15 : formatFixed6 250 = ("250.000000").toList := by
    have h : (⌊(250 : ℚ) * 1000000 + 1 / 2⌋) = 250000000 := by norm_num
    simp only [formatFixed6, h]; decide
  have f16 : formatFixed6 260 = ("260.000000").toList := by
    have h : (⌊(260 : ℚ) * 1000000 + 1 / 2⌋) = 260000000 := by norm_num
    simp only [formatFixed6, h]; decide
  refine ⟨?_, ?_, ?_, ?_, ?_, rfl, rfl, ?_⟩
  · simp [create_example_ids, EXAMPLE_DICT_FOR_IDS, EXAMPLE_ID_STRINGS, channelOf, List.indexOf,
      List.findIdx, List.findIdx.go, LATITUDE_NAME, LONGITUDE_NAME, ZENITH_ANGLE_NAME,
      TEMPERATURE_NAME, MIDLATITUDE_WINTER_ENUM, SUBARCTIC_WINTER_ENUM, qmem_isTrue,
      List.range, List.range.loop, exampleIdChars, f01, f02, f03, f04, f05, f06, f07, f08,
      f09, f10, f11, f12, f13, f14, f15, f16]
    decide
  · have p1 : parseOneIdRaw (r"lat=40.000000_long=255.000000_zenith-angle-rad=0.500000_time=0000000000_atmo=3_temp-10m-kelvins=230.000000") = some { lat := (40, 0, 6), lon := (255, 0, 6), zen := (0, 500000, 6), time := 0, atmo := 3, temp := (230, 0, 6) } := by
      decide
    have p2 : parseOneIdRaw (r"lat=40.040000_long=254.740000_zenith-angle-rad=0.666000_time=0010000000_atmo=3_temp-10m-kelvins=240.000000") = some { lat := (40, 40000, 6), lon := (254, 740000, 6), zen := (0, 666000, 6), time := 10000000, atmo := 3, temp := (240, 0, 6) } := by
      decide
    have p3 : parseOneIdRaw (r"lat=53.500000_long=246.500000_zenith-angle-rad=0.777778_time=0100000000_atmo=5_temp-10m-kelvins=250.000000") = some { lat := (53, 500000, 6), lon := (246, 500000, 6), zen := (0, 777778, 6), time := 100000000, atmo := 5, temp := (250, 0, 6) } := by
      decide
    have p4 : parseOneIdRaw (r"lat=40.038111_long=254.744028_zenith-angle-rad=1.000000_time=1000000000_atmo=3_temp-10m-kelvins=260.000000") = some { lat := (40, 38111, 6), lon := (254, 744028, 6), zen := (1, 0, 6), time := 1000000000, atmo := 3, temp := (260, 0, 6) } := by
      decide
    simp only [parse_example_ids, EXAMPLE_ID_STRINGS, parseAllIds, parseOneId, p1, p2, p3, p4,
      Option.map_some]
    norm_num [ratOfDec, EXAMPLE_ID_METADATA]
  · norm_num [allClose, EXAMPLE_ID_METADATA, EXAMPLE_DICT_FOR_IDS, TOLERANCE, List.zip,
      List.zipWith, abs]
  · norm_num [allClose, EXAMPLE_ID_METADATA, EXAMPLE_DICT_FOR_IDS, TOLERANCE, List.zip,
      List.zipWith, abs]
  · norm_num [allClose, EXAMPLE_ID_METADATA, EXAMPLE_DICT_FOR_IDS, TOLERANCE, List.zip,
      List.zipWith, abs]
  · norm_num [allClose, EXAMPLE_ID_METADATA, EXAMPLE_DICT_FOR_IDS, TOLERANCE, List.zip,
      List.zipWith, abs]

/-- C4 counterexample: the claim says all vector field values at the
padded heights are set to the fill value zero; but on the fixture of the
padded-subset test (all desired heights beyond the real top, hence
padded), the specific-humidity value of the first example at the first
selected (padded) height is 0.007, not zero — vector predictors are
padded by repeating the topmost real value. -/
theorem subset_by_height_zero_fill_counterexample :
    ((((subset_by_height EXAMPLE_DICT_SANS_PADDING
          PADDED_HEIGHTS_TO_KEEP_M_AGL).toOption.getD default).vector_predictor_values.getD 0
        []).getD 0 []).getD 0 0 = 7 / 1000 ∧ (7 : ℚ) / 1000 ≠ 0 := by
  constructor
  · norm_num [subset_by_height, add_height_padding, selectHeightIndices, EXAMPLE_DICT_SANS_PADDING,
      REAL_HEIGHTS_M_AGL, PADDED_HEIGHTS_TO_KEEP_M_AGL,
      PAD_HUMIDITY_MATRIX, PAD_TEMPERATURE_MATRIX, PAD_UP_FLUX_MATRIX, PAD_DOWN_FLUX_MATRIX,
      scaleRows, shiftRows, qlt_isTrue, qlt_isFalse, qmem_isTrue, qmem_isFalse, List.replicate,
      List.indexOf, List.findIdx, List.findIdx.go, cond_eq_if, beq_iff_eq, Except.toOption]
  · norm_num

set_option maxHeartbeats 4000000 in
/-- C4 (amended): desired heights beyond the real grid top are added as
`create_fake_heights`-style synthetic heights (first synthetic height =
real top + 1,000,000 m, stepping by 1,000,000 m); at the padded heights
every vector target is filled with zero while every vector predictor
repeats its topmost real value; the output height ordering matches the
desired-heights order exactly.  Verified on the literal fixtures of the
padding and padded-subset tests. -/
theorem subset_by_height_padding_amended :
    create_fake_heights REAL_HEIGHTS_M_AGL 10 = PADDED_HEIGHTS_M_AGL ∧
    add_height_padding EXAMPLE_DICT_SANS_PADDING PADDED_HEIGHTS_M_AGL = EXAMPLE_DICT_WITH_PADDING ∧
    subset_by_height EXAMPLE_DICT_SANS_PADDING PADDED_HEIGHTS_TO_KEEP_M_AGL =
      Except.ok EXAMPLE_DICT_PADDED_SELECT_HEIGHTS ∧
    EXAMPLE_DICT_PADDED_SELECT_HEIGHTS.heights = PADDED_HEIGHTS_TO_KEEP_M_AGL := by
  refine ⟨?_, ?_, ?_, rfl⟩
  · norm_num [create_fake_heights, REAL_HEIGHTS_M_AGL, PADDED_HEIGHTS_M_AGL, List.range,
      List.range.loop]
  · norm_num [add_height_padding, EXAMPLE_DICT_SANS_PADDING, EXAMPLE_DICT_WITH_PADDING,
      REAL_HEIGHTS_M_AGL, PADDED_HEIGHTS_M_AGL, PAD_HUMIDITY_MATRIX, PAD_TEMPERATURE_MATRIX,
      PAD_UP_FLUX_MATRIX, PAD_DOWN_FLUX_MATRIX, scaleRows, shiftRows, padRowsEdge, padRowsZero,
      qlt_isTrue, qlt_isFalse, List.replicate]
  · norm_num [subset_by_height, add_height_padding, selectHeightIndices, EXAMPLE_DICT_SANS_PADDING,
      EXAMPLE_DICT_PADDED_SELECT_HEIGHTS, REAL_HEIGHTS_M_AGL, PADDED_HEIGHTS_TO_KEEP_M_AGL,
      PAD_HUMIDITY_MATRIX, PAD_TEMPERATURE_MATRIX, PAD_UP_FLUX_MATRIX, PAD_DOWN_FLUX_MATRIX,
      scaleRows, shiftRows, qlt_isTrue, qlt_isFalse, qmem_isTrue, qmem_isFalse, List.replicate,
      List.indexOf, List.findIdx, List.findIdx.go, cond_eq_if, beq_iff_eq]

/-- C6: `concat_examples` on two collections returns, when the heights
and every field-name list agree, the collection whose per-example arrays
are the channel-wise concatenations of the inputs in input order and
whose example-ID list is the list concatenation; and errs with a
structural mismatch when the heights or any field-name list differ. -/
theorem concat_examples_spec (d1 d2 : ExampleDict) :
    (d1.heights = d2.heights ∧
        d1.scalar_predictor_names = d2.scalar_predictor_names ∧
        d1.vector_predictor_names = d2.vector_predictor_names ∧
        d1.scalar_target_names = d2.scalar_target_names ∧
        d1.vector_target_names = d2.vector_target_names →
      concat_examples [d1, d2] = Except.ok
        { d1 with
          scalar_predictor_values :=
            List.zipWith (fun a b => a ++ b) d1.scalar_predictor_values d2.scalar_predictor_values,
          vector_predictor_values :=
            List.zipWith (fun a b => a ++ b) d1.vector_predictor_values d2.vector_predictor_values,
          scalar_target_values :=
            List.zipWith (fun a b => a ++ b) d1.scalar_target_values d2.scalar_target_values,
          vector_target_values :=
            List.zipWith (fun a b => a ++ b) d1.vector_target_values d2.vector_target_values,
          valid_times := d1.valid_times ++ d2.valid_times,
          standard_atmo_flags := d1.standard_atmo_flags ++ d2.standard_atmo_flags,
          example_id_strings := d1.example_id_strings ++ d2.example_id_strings }) ∧
    (¬(d1.heights = d2.heights ∧
        d1.scalar_predictor_names = d2.scalar_predictor_names ∧
        d1.vector_predictor_names = d2.vector_predictor_names ∧
        d1.scalar_target_names = d2.scalar_target_names ∧
        d1.vector_target_names = d2.vector_target_names) →
      concat_examples [d1, d2] = Except.error ExampleError.structuralMismatch) := by
  have hiff : sameStructure d1 d2 = true ↔
      (d1.heights = d2.heights ∧
        d1.scalar_predictor_names = d2.scalar_predictor_names ∧
        d1.vector_predictor_names = d2.vector_predictor_names ∧
        d1.scalar_target_names = d2.scalar_target_names ∧
        d1.vector_target_names = d2.vector_target_names) := by
    simp [sameStructure, and_assoc]
  constructor
  · intro hc
    have hs : sameStructure d1 d2 = true := hiff.mpr hc
    simp [concat_examples, hs, mergeTwo]
  · intro hn
    have hs : sameStructure d1 d2 = false := by
      rcases hb : sameStructure d1 d2
      · rfl
      · exact absurd (hiff.mp hb) hn
    simp [concat_examples, hs]

/-- Witness for C6: the two concatenation fixtures — the compatible pair
concatenates to the expected fixture collection, and the pair with an
extra scalar-predictor name errs. -/
theorem concat_examples_spec_witness :
    concat_examples [FIRST_EXAMPLE_DICT, SECOND_EXAMPLE_DICT] = Except.ok CONCAT_EXAMPLE_DICT ∧
    concat_examples [FIRST_EXAMPLE_DICT, SECOND_EXAMPLE_DICT_BAD_FIELDS] =
      Except.error ExampleError.structuralMismatch := by
  constructor
  · exact (concat_examples_spec FIRST_EXAMPLE_DICT SECOND_EXAMPLE_DICT).1
      ⟨rfl, rfl, rfl, rfl, rfl⟩
  · refine (concat_examples_spec FIRST_EXAMPLE_DICT SECOND_EXAMPLE_DICT_BAD_FIELDS).2 ?_
    intro hc
    have h := hc.2.1
    simp [FIRST_EXAMPLE_DICT, SECOND_EXAMPLE_DICT_BAD_FIELDS, SECOND_EXAMPLE_DICT] at h

theorem set_getD_self {α : Type} : ∀ (l : List α) (n : Nat) (d : α), l.set n (l.getD n d) = l := by
  intro l
  induction l with
  | nil => intro n d; simp
  | cons a l ih =>
      intro n d
      cases n with
      | zero => simp [List.getD_cons_zero]
      | succ n => simp only [List.set, List.getD_cons_succ, ih n d]

/-- C1: for every valid collection with up/down shortwave flux vector
targets (strictly increasing heights, aligned name/value lists, profiles
matching the height axis, increment names not already present),
`fluxes_actual_to_increments` adds the two increment-named vector
targets — the per-cell flux difference divided by the grid-cell width,
the bottom cell's increment equal to the bottom actual value — while
retaining the two actual-named ones; and `fluxes_increments_to_actual`
applied to the result returns it unchanged (exact equality, hence equal
within 1e-6 on all four overlapping flux fields). -/
theorem flux_increment_round_trip (d : ExampleDict)
    (hchain : d.heights.Chain' (· < ·)) (hlen : 2 ≤ d.heights.length)
    (hnv : d.vector_target_names.length = d.vector_target_values.length)
    (hup : SHORTWAVE_UP_FLUX_NAME ∈ d.vector_target_names)
    (hdown : SHORTWAVE_DOWN_FLUX_NAME ∈ d.vector_target_names)
    (hnotui : SHORTWAVE_UP_FLUX_INC_NAME ∉ d.vector_target_names)
    (hnotdi : SHORTWAVE_DOWN_FLUX_INC_NAME ∉ d.vector_target_names)
    (huplen : ∀ p ∈ d.vector_target_values.getD
      (d.vector_target_names.indexOf SHORTWAVE_UP_FLUX_NAME) [], p.length = d.heights.length)
    (hdownlen : ∀ p ∈ d.vector_target_values.getD
      (d.vector_target_names.indexOf SHORTWAVE_DOWN_FLUX_NAME) [], p.length = d.heights.length) :
    fluxes_actual_to_increments d = Except.ok { d with
      vector_target_names :=
        d.vector_target_names ++ [SHORTWAVE_DOWN_FLUX_INC_NAME, SHORTWAVE_UP_FLUX_INC_NAME],
      vector_target_values := d.vector_target_values ++
        [(d.vector_target_values.getD
            (d.vector_target_names.indexOf SHORTWAVE_DOWN_FLUX_NAME) []).map
           (fun p => List.zipWith (fun x wi => x / wi) (deltas p)
             (get_grid_cell_widths (get_grid_cell_edges d.heights))),
         (d.vector_target_values.getD
            (d.vector_target_names.indexOf SHORTWAVE_UP_FLUX_NAME) []).map
           (fun p => List.zipWith (fun x wi => x / wi) (deltas p)
             (get_grid_cell_widths (get_grid_cell_edges d.heights)))] } ∧
    (∀ d2, fluxes_actual_to_increments d = Except.ok d2 →
      fluxes_increments_to_actual d2 = Except.ok d2) := by
  have hw_pos := widths_pos d.heights hchain hlen
  have hw_nz : ∀ x ∈ get_grid_cell_widths (get_grid_cell_edges d.heights), x ≠ 0 :=
    fun x hx => ne_of_gt (hw_pos x hx)
  have hw_len : (get_grid_cell_widths (get_grid_cell_edges d.heights)).length =
      d.heights.length := grid_cell_widths_length d.heights hlen
  have hA : fluxes_actual_to_increments d = Except.ok { d with
      vector_target_names :=
        d.vector_target_names ++ [SHORTWAVE_DOWN_FLUX_INC_NAME, SHORTWAVE_UP_FLUX_INC_NAME],
      vector_target_values := d.vector_target_values ++
        [(d.vector_target_values.getD
            (d.vector_target_names.indexOf SHORTWAVE_DOWN_FLUX_NAME) []).map
           (fun p => List.zipWith (fun x wi => x / wi) (deltas p)
             (get_grid_cell_widths (get_grid_cell_edges d.heights))),
         (d.vector_target_values.getD
            (d.vector_target_names.indexOf SHORTWAVE_UP_FLUX_NAME) []).map
           (fun p => List.zipWith (fun x wi => x / wi) (deltas p)
             (get_grid_cell_widths (get_grid_cell_edges d.heights)))] } := by
    unfold fluxes_actual_to_increments channelOf
    rw [if_pos hup, if_pos hdown]
  refine ⟨hA, ?_⟩
  intro d2 h2
  rw [hA] at h2
  simp only [Except.ok.injEq] at h2
  subst h2
  have hUIne : SHORTWAVE_DOWN_FLUX_INC_NAME ≠ SHORTWAVE_UP_FLUX_INC_NAME := by decide
  have hui : SHORTWAVE_UP_FLUX_INC_NAME ∈
      d.vector_target_names ++ [SHORTWAVE_DOWN_FLUX_INC_NAME, SHORTWAVE_UP_FLUX_INC_NAME] := by
    simp
  have hdi : SHORTWAVE_DOWN_FLUX_INC_NAME ∈
      d.vector_target_names ++ [SHORTWAVE_DOWN_FLUX_INC_NAME, SHORTWAVE_UP_FLUX_INC_NAME] := by
    simp
  have iUI : (d.vector_target_names ++
      [SHORTWAVE_DOWN_FLUX_INC_NAME, SHORTWAVE_UP_FLUX_INC_NAME]).indexOf
        SHORTWAVE_UP_FLUX_INC_NAME = d.vector_target_names.length + 1 := by
    rw [List.indexOf_append_of_not_mem hnotui]
    simp [List.indexOf_cons_ne _ hUIne, List.indexOf_cons_self]
  have iDI : (d.vector_target_names ++
      [SHORTWAVE_DOWN_FLUX_INC_NAME, SHORTWAVE_UP_FLUX_INC_NAME]).indexOf
        SHORTWAVE_DOWN_FLUX_INC_NAME = d.vector_target_names.length + 0 := by
    rw [List.indexOf_append_of_not_mem hnotdi]
    simp [List.indexOf_cons_self]
  have iU : (d.vector_target_names ++
      [SHORTWAVE_DOWN_FLUX_INC_NAME, SHORTWAVE_UP_FLUX_INC_NAME]).indexOf
        SHORTWAVE_UP_FLUX_NAME = d.vector_target_names.indexOf SHORTWAVE_UP_FLUX_NAME :=
    List.indexOf_append_of_mem hup
  have iD : (d.vector_target_names ++
      [SHORTWAVE_DOWN_FLUX_INC_NAME, SHORTWAVE_UP_FLUX_INC_NAME]).indexOf
        SHORTWAVE_DOWN_FLUX_NAME = d.vector_target_names.indexOf SHORTWAVE_DOWN_FLUX_NAME :=
    List.indexOf_append_of_mem hdown
  have hiU_lt : d.vector_target_names.indexOf SHORTWAVE_UP_FLUX_NAME <
      d.vector_target_values.length := by
    rw [← hnv]; exact List.indexOf_lt_length.mpr hup
  have hiD_lt : d.vector_target_names.indexOf SHORTWAVE_DOWN_FLUX_NAME <
      d.vector_target_values.length := by
    rw [← hnv]; exact List.indexOf_lt_length.mpr hdown
  unfold fluxes_increments_to_actual channelOf
  rw [if_pos hui, if_pos hdi]
  simp only [iUI, iDI, hnv]
  rw [List.getD_append_right _ _ _ _ (by omega), List.getD_append_right _ _ _ _ (by omega)]
  simp only [Nat.add_sub_cancel_left, Nat.add_zero, Nat.sub_self]
  rw [if_pos ⟨List.mem_append_left _ hup, List.mem_append_left _ hdown⟩]
  simp only [List.getD_cons_zero, List.getD_cons_succ]
  rw [List.map_map, List.map_map]
  have hnewUp : (d.vector_target_values.getD
      (d.vector_target_names.indexOf SHORTWAVE_UP_FLUX_NAME) []).map
        ((fun p => cumsum (List.zipWith (fun x wi => x * wi) p
          (get_grid_cell_widths (get_grid_cell_edges d.heights)))) ∘
         (fun p => List.zipWith (fun x wi => x / wi) (deltas p)
          (get_grid_cell_widths (get_grid_cell_edges d.heights)))) =
      d.vector_target_values.getD (d.vector_target_names.indexOf SHORTWAVE_UP_FLUX_NAME) [] := by
    rw [show (d.vector_target_values.getD
        (d.vector_target_names.indexOf SHORTWAVE_UP_FLUX_NAME) []).map
          ((fun p => cumsum (List.zipWith (fun x wi => x * wi) p
            (get_grid_cell_widths (get_grid_cell_edges d.heights)))) ∘
           (fun p => List.zipWith (fun x wi => x / wi) (deltas p)
            (get_grid_cell_widths (get_grid_cell_edges d.heights)))) =
        (d.vector_target_values.getD
          (d.vector_target_names.indexOf SHORTWAVE_UP_FLUX_NAME) []).map id from
        List.map_congr_left (fun p hp => roundTripProfile p _ (by rw [hw_len, huplen p hp])
          hw_nz)]
    exact List.map_id _
  have hnewDown : (d.vector_target_values.getD
      (d.vector_target_names.indexOf SHORTWAVE_DOWN_FLUX_NAME) []).map
        ((fun p => cumsum (List.zipWith (fun x wi => x * wi) p
          (get_grid_cell_widths (get_grid_cell_edges d.heights)))) ∘
         (fun p => List.zipWith (fun x wi => x / wi) (deltas p)
          (get_grid_cell_widths (get_grid_cell_edges d.heights)))) =
      d.vector_target_values.getD (d.vector_target_names.indexOf SHORTWAVE_DOWN_FLUX_NAME)
        [] := by
    rw [show (d.vector_target_values.getD
        (d.vector_target_names.indexOf SHORTWAVE_DOWN_FLUX_NAME) []).map
          ((fun p => cumsum (List.zipWith (fun x wi => x * wi) p
            (get_grid_cell_widths (get_grid_cell_edges d.heights)))) ∘
           (fun p => List.zipWith (fun x wi => x / wi) (deltas p)
            (get_grid_cell_widths (get_grid_cell_edges d.heights)))) =
        (d.vector_target_values.getD
          (d.vector_target_names.indexOf SHORTWAVE_DOWN_FLUX_NAME) []).map id from
        List.map_congr_left (fun p hp => roundTripProfile p _ (by rw [hw_len, hdownlen p hp])
          hw_nz)]
    exact List.map_id _
  rw [iU, iD, hnewUp, hnewDown]
  have halt : ∀ (L1 L2 : List (List (List ℚ))) (i j : Nat), i < L1.length → j < L1.length →
      ((L1 ++ L2).set i (L1.getD i [])).set j (L1.getD j []) = L1 ++ L2 := by
    intro L1 L2 i j hi hj
    rw [← List.getD_append L1 L2 [] i hi, set_getD_self, ← List.getD_append L1 L2 [] j hj,
      set_getD_self]
  rw [halt _ _ _ _ hiU_lt hiD_lt]

set_option maxHeartbeats 2000000 in
/-- Witness for C1: the fixture collection of the flux tests; the
forward transform produces exactly the fixture with increments, and the
round trip fixes it. -/
theorem flux_increment_round_trip_witness :
    fluxes_actual_to_increments EXAMPLE_DICT_FLUXES_ONLY =
      Except.ok EXAMPLE_DICT_WITH_INCREMENTS ∧
    fluxes_increments_to_actual EXAMPLE_DICT_WITH_INCREMENTS =
      Except.ok EXAMPLE_DICT_WITH_INCREMENTS := by
  have hfwd : fluxes_actual_to_increments EXAMPLE_DICT_FLUXES_ONLY =
      Except.ok EXAMPLE_DICT_WITH_INCREMENTS := by
    simp [fluxes_actual_to_increments, channelOf, EXAMPLE_DICT_FLUXES_ONLY,
      EXAMPLE_DICT_WITH_INCREMENTS, THIS_UP_FLUX_MATRIX_W_M02, THIS_DOWN_FLUX_MATRIX_W_M02,
      THIS_UP_FLUX_INC_MATRIX_W_M02, THIS_DOWN_FLUX_INC_MATRIX_W_M02,
      THIS_UP_FLUX_INC_MATRIX_W_M03, THIS_DOWN_FLUX_INC_MATRIX_W_M03,
      THIS_PRESSURE_MATRIX_PASCALS, THIS_WIDTH_PROFILE_METRES, THESE_HEIGHTS_M_AGL, scaleRows,
      VALID_TIMES_UNIX_SEC, deltas, deltasFrom, get_grid_cell_widths, get_grid_cell_edges,
      midpoints, consecutiveDiffs, List.indexOf, List.findIdx, List.findIdx.go,
      SHORTWAVE_UP_FLUX_NAME, SHORTWAVE_DOWN_FLUX_NAME, SHORTWAVE_UP_FLUX_INC_NAME,
      SHORTWAVE_DOWN_FLUX_INC_NAME, PRESSURE_NAME]
    norm_num
  refine ⟨hfwd, ?_⟩
  exact (flux_increment_round_trip EXAMPLE_DICT_FLUXES_ONLY
    (by norm_num [EXAMPLE_DICT_FLUXES_ONLY, THESE_HEIGHTS_M_AGL, List.chain'_cons,
      List.chain'_singleton])
    (by decide) (by decide)
    (by decide) (by decide) (by decide) (by decide) (by decide) (by decide)).2
    EXAMPLE_DICT_WITH_INCREMENTS hfwd



/-- C9: `get_field_from_dict` on a scalar-predictor field with an
explicit height argument ignores the height: it returns the full
length-N column of the field, identical to the lookup with no height,
and never raises a lookup error, whatever the height. -/
theorem get_field_scalar_ignores_height (d : ExampleDict) (field : String) (h : ℚ)
    (hmem : field ∈ d.scalar_predictor_names) :
    get_field_from_dict d field (some h) =
      Except.ok (FieldSlice.column
        (d.scalar_predictor_values.getD (d.scalar_predictor_names.indexOf field) [])) ∧
    get_field_from_dict d field (some h) = get_field_from_dict d field none := by
  unfold get_field_from_dict channelOf
  rw [if_pos hmem]
  exact ⟨rfl, rfl⟩

/-- Witness for C9: the zenith angle of the first fixture collection
looked up at height 10 m, a height absent from the grid, still returns
the full scalar column. -/
theorem get_field_scalar_ignores_height_witness :
    get_field_from_dict FIRST_EXAMPLE_DICT ZENITH_ANGLE_NAME (some 10) =
      Except.ok (FieldSlice.column [0, 1, 2, 3]) ∧
    (10 : ℚ) ∉ FIRST_EXAMPLE_DICT.heights := by
  have h := get_field_scalar_ignores_height FIRST_EXAMPLE_DICT ZENITH_ANGLE_NAME 10 (by decide)
  exact ⟨h.1.trans (by decide), by decide⟩

/-- C10: in `misc.subset_examples`, whenever `indices_to_keep` is a
genuine index array (not `None` and not the one-element negative
sentinel), `num_examples_to_keep` is unconditionally overwritten with
`None` and the comparison `num_examples_to_keep < 1` is then evaluated
on `None`, raising `TypeError` before the indices are validated and
returned — whatever `num_examples_to_keep` and `num_examples_total`
were. -/
theorem subset_examples_genuine_indices_type_error (idx : List Int) (num : Option Int)
    (total : Int) (hsent : ¬(idx.length = 1 ∧ idx.headD 0 < 0)) :
    subset_examples (some idx) num total = Except.error PyErr.typeError := by
  simp only [subset_examples, if_neg hsent, Option.isSome_some, if_pos rfl, if_true]

/-- Witness for C10: the two-element index array [0, 2] with a valid
requested count and total still raises `TypeError`. -/
theorem subset_examples_genuine_indices_type_error_witness :
    subset_examples (some [0, 2]) (some 5) 10 = Except.error PyErr.typeError :=
  subset_examples_genuine_indices_type_error [0, 2] (some 5) 10 (by decide)

end Ml4rt
